import Mathlib

/-!
# Epiphany simulator entry points (`sim/epiphany/sim-if.c`)

A shallow embedding of the option handlers, the cpu-state relocator, `sim_open`,
`free_state` and `sim_create_inferior`, together with the properties established
about them.

Conventions of the embedding.

* Mutable data (the fields of the simulator descriptor `sd` that this file touches and the
  file-level statics) lives in `sim_state`; every function passes it explicitly.
* Every call that leaves this file (the common simulator framework, the mesh library
  `emesh.h`, the decode engine) is recorded as an `Event` in `World.trace`, with the value
  it returned, so that "calls", "does not call" and "calls before" are statements about
  the trace.
* The callee's behaviour is a parameter: `Esim` for the mesh library, `MemCore` for the
  memory core, `Framework` for the common framework and the cpu macros.  Constants of
  headers that are not part of this file are parameters too (`MemLayout`, `Sizes`,
  `Build.MAX_NR_PROCESSORS`).  Theorems are proved for every choice of these parameters
  unless they say otherwise.
-/

namespace Epiphany

/-! ## Basic types -/

/-- The framework's return code. -/
inductive SIM_RC where
  | SIM_RC_FAIL
  | SIM_RC_OK
  deriving DecidableEq, Repr

/-- How the simulator was opened: stand-alone (`run`) or under a debugger. -/
inductive SIM_OPEN_KIND where
  | SIM_OPEN_STANDALONE
  | SIM_OPEN_DEBUG
  deriving DecidableEq, Repr

/-- The diagnostics printed through `sim_io_eprintf`, one constructor per format string. -/
inductive Diag where
  | invalid_coreid            -- "Invalid coreid ... Valid range [1-4095]"
  | not_in_node               -- "coreid ... is not valid since it does not belong to this node."
  | could_not_set             -- "Could not set coreid to ... Maybe it was already reserved"
  | esim_init_failed          -- "Failed to initialize esim"
  | coreid_must_be_set        -- "Coreid must be set. Set with --coreid"
  | invalid_coreid_standalone -- "Invalid coreid. Set with --coreid"
  | invalid_coreid_debug      -- "Invalid coreid. Set with \"sim coreid\""
  | waiting                   -- "ESIM: Waiting for other cores..."
  | done                      -- " done."
  deriving DecidableEq, Repr

/-- One per-core state record (`sim_cpu`), known by its address; the contents of the record
are not interpreted by this file. -/
structure sim_cpu where
  addr : Nat
  deriving DecidableEq, Repr

/-- Node configuration handed to `es_init`. -/
structure es_node_cfg where
  rank : Nat
  deriving DecidableEq, Repr

/-- Cluster configuration handed to `es_init`. -/
structure es_cluster_cfg where
  nodes : Nat
  row_base : Nat
  col_base : Nat
  rows : Nat
  cols : Nat
  core_mem_region : Nat
  ext_ram_size : Nat
  ext_ram_node : Nat
  ext_ram_base : Nat
  deriving DecidableEq, Repr

/-- Calls that leave `sim-if.c`, each with its arguments and the value it returned, and
the accesses to the cpu table made by the two loops of `sim_open`, each with the index `i`
of the `STATE_CPU (sd, i)` it goes through. -/
inductive Event where
  | sim_io_eprintf (d : Diag)
  -- cpu table: CPU_CPU_DESC and CPU_DISASSEMBLER of STATE_CPU (sd, i) are written
  | attach_STATE_CPU (i : Nat)
  -- cpu table: the misc profile of STATE_CPU (sd, i) is cleared and its callback installed
  | hook_STATE_CPU (i : Nat)
  -- mesh library
  | es_init (node : es_node_cfg) (cluster : es_cluster_cfg) (ret : Nat)
  | es_valid_coreid (coreid : Nat) (ret : Bool)
  | es_set_coreid (coreid : Nat) (ret : Nat)
  | es_set_cpu_state (old : Nat) (size : Nat) (ret : Option Nat)
  | es_cleanup
  | es_wait_run
  -- common framework
  | sim_state_alloc
  | sim_cpu_alloc_all (ret : SIM_RC)
  | sim_cpu_free (addr : Nat)
  | sim_cpu_free_all
  | sim_state_free
  | sim_module_uninstall
  | sim_pre_argv_init (ret : SIM_RC)
  | dv_sockser_install (ret : SIM_RC)
  | sim_add_option_table
  | sim_parse_args (ret : SIM_RC)
  | sim_hw_parse
  | sim_core_read_buffer (addr : Nat) (ret : Nat)
  | sim_do_commandf_memory_region (base : Nat) (size : Nat)
  | sim_analyze_program (ret : SIM_RC)
  | sim_config (ret : SIM_RC)
  | sim_post_argv_init (ret : SIM_RC)
  | sim_pc_set (addr : Nat)
  -- decode engine
  | epiphany_cgen_cpu_open_1
  | epiphany_cgen_init_dis
  | cgen_init
  | cgen_init_accurate_fpu
  | epiphany_cgen_cpu_close
  | epiphanybf_h_cr_set (spu : Bool) (val : Nat)   -- SPI_REGNUM (false) or SPU_REGNUM (true)
  | epiphanybf_h_coremesh_registers_set (cpu : Nat) (reg : Nat) (val : Nat)
  deriving DecidableEq, Repr

/-- The data this file reads and writes: the descriptor fields and the file-level statics.
`cpu` is the record `STATE_CPU (sd, 0)`, the one record that `sim_open` allocates. -/
structure sim_state (ES M : Type) where
  kind : SIM_OPEN_KIND           -- STATE_OPEN_KIND (sd)
  modules : Bool                 -- STATE_MODULES (sd) != NULL
  esim : ES                      -- *STATE_ESIM (sd)
  core : M                       -- the memory core of sd
  cpu : sim_cpu                  -- STATE_CPU (sd, 0)
  epiphany_add_ext_mem : Nat     -- static unsigned epiphany_add_ext_mem = 1
  freed : Nat                    -- static unsigned freed = 0 (in sim_esim_cpu_relocate)
  current_state : Bool           -- current_state == sd
  is_sim_opened : Nat            -- int is_sim_opened = 0

/-- A state together with the log of calls made so far. -/
structure World (ES M : Type) where
  st : sim_state ES M
  trace : List Event

/-- Append one event to the log. -/
def World.log {ES M : Type} (w : World ES M) (e : Event) : World ES M :=
  { w with trace := w.trace ++ [e] }

/-- The mesh library (`emesh.h`), whose code is not part of this file: each function is
a parameter.  `coreid` reads the field `STATE_ESIM (sd)->coreid`. -/
structure Esim (ES : Type) where
  zeroed : ES                                   -- the result of memset (esim, 0, sizeof)
  coreid : ES → Nat
  es_init : ES → es_node_cfg → es_cluster_cfg → Nat × ES
  es_valid_coreid : ES → Nat → Bool
  es_set_coreid : ES → Nat → Nat × ES
  es_set_cpu_state : ES → sim_cpu → Nat → Option sim_cpu × ES
  es_cleanup : ES → ES
  es_wait_run : ES → Option ES                  -- none: the barrier never releases

/-- Sizes supplied by the decode engine and the compiler. -/
structure Sizes where
  sizeof_sim_cpu : Nat
  cgen_cpu_max_extra_bytes : Nat

/-- The memory core of the common framework, whose code is not part of this file.
`sim_core_read_buffer m a` is the number of bytes read by a one-byte read at `a` through
the read map (0: the address is not backed); `memory_region m base size` is the effect of
the command `memory region base,size` (the command returns nothing). -/
structure MemCore (M : Type) where
  sim_core_read_buffer : M → Nat → Nat
  memory_region : M → Nat → Nat → M

/-- The address-map constants of `sim-main.h`, which is not part of this file. -/
structure MemLayout where
  EPIPHANY_DEFAULT_MEM_SIZE : Nat
  EPIPHANY_DEFAULT_EXT_MEM_BANK0_START : Nat
  EPIPHANY_DEFAULT_EXT_MEM_BANK1_START : Nat
  EPIPHANY_DEFAULT_EXT_MEM_BANK_SIZE : Nat

/-- The preprocessor switches that select code in this file, and the constant
`MAX_NR_PROCESSORS`, which bounds the two loops of `sim_open` and is defined in a header
that is not part of this file. -/
structure Build where
  WITH_EMESH_SIM : Bool
  WITH_HW : Bool
  HAVE_DV_SOCKSER : Bool
  EPIPHANY_LINUX : Bool
  MAX_NR_PROCESSORS : Nat

/-- The calls into the common framework and the decode engine made by `sim_open`, each a
parameter acting on the state. -/
structure Framework (ES M : Type) where
  sim_state_alloc : SIM_OPEN_KIND → sim_state ES M → sim_state ES M
  sim_cpu_alloc_all : sim_state ES M → SIM_RC × sim_state ES M
  sim_pre_argv_init : sim_state ES M → SIM_RC × sim_state ES M
  dv_sockser_install : sim_state ES M → SIM_RC × sim_state ES M
  sim_add_option_table : sim_state ES M → sim_state ES M
  sim_parse_args : List String → sim_state ES M → SIM_RC × sim_state ES M
  sim_hw_parse : sim_state ES M → sim_state ES M
  sim_analyze_program : sim_state ES M → SIM_RC × sim_state ES M
  sim_config : sim_state ES M → SIM_RC × sim_state ES M
  sim_post_argv_init : sim_state ES M → SIM_RC × sim_state ES M
  epiphany_cgen_cpu_open_1 : Nat
  cgen_init : sim_state ES M → sim_state ES M
  -- The macros STATE_CPU, CPU_CPU_DESC, CPU_DISASSEMBLER, CPU_EPIPHANY_MISC_PROFILE,
  -- CPU_PROFILE_DATA and PROFILE_INFO_CPU_CALLBACK are defined in headers that are not part
  -- of this file: what the body of each loop of sim_open does to the state, given the index
  -- it passes to STATE_CPU (and the descriptor), is a parameter.
  attach_STATE_CPU : Nat → Nat → sim_state ES M → sim_state ES M
  hook_STATE_CPU : Nat → sim_state ES M → sim_state ES M

/-- Run one framework call that returns a code, and log it. -/
def World.call {ES M : Type} (w : World ES M)
    (f : sim_state ES M → SIM_RC × sim_state ES M) (ev : SIM_RC → Event) :
    SIM_RC × World ES M :=
  ((f w.st).1, ({ w with st := (f w.st).2 }).log (ev (f w.st).1))

/-- Run one framework call that returns nothing, and log it. -/
def World.exec {ES M : Type} (w : World ES M)
    (f : sim_state ES M → sim_state ES M) (ev : Event) : World ES M :=
  ({ w with st := f w.st }).log ev

/-! ## The C library functions used by the option handlers -/

/-- Largest `unsigned long` (LP64 host). -/
def ULONG_MAX : Nat := 2 ^ 64 - 1

/-- Test for a decimal digit, as `isdigit` in the C locale. -/
def isdigit (c : Char) : Bool :=
  decide (48 ≤ c.toNat ∧ c.toNat ≤ 57)

/-- Test for white space, as `isspace` in the C locale. -/
def isspace (c : Char) : Bool :=
  decide (c.toNat = 32 ∨ (9 ≤ c.toNat ∧ c.toNat ≤ 13))

/-- Value of a character as a digit in some base up to 36. -/
def digit_value (c : Char) : Option Nat :=
  let n := c.toNat
  if 48 ≤ n ∧ n ≤ 57 then some (n - 48)
  else if 97 ≤ n ∧ n ≤ 122 then some (n - 97 + 10)
  else if 65 ≤ n ∧ n ≤ 90 then some (n - 65 + 10)
  else none

/-- The digit loop of `strtoul`: consume digits of `base`, return the exact value, whether
any digit was consumed, and the unconsumed rest. -/
def strtoul_digits (base : Nat) : List Char → Nat → Bool → Nat × Bool × List Char
  | [], acc, any => (acc, any, [])
  | c :: cs, acc, any =>
    match digit_value c with
    | some d =>
      if d < base then strtoul_digits base cs (acc * base + d) true
      else (acc, any, c :: cs)
    | none => (acc, any, c :: cs)

/-- Is the character a hexadecimal digit. -/
def isxdigit (c : Char) : Bool :=
  match digit_value c with
  | some d => decide (d < 16)
  | none => false

/-- The base selection of `strtoul` for base 0 (and the optional `0x` of base 16). -/
def strtoul_base (base : Nat) (s : List Char) : Nat × List Char :=
  match s with
  | z :: x :: h :: r =>
    if (base = 0 ∨ base = 16) ∧ z.toNat = 48 ∧ (x.toNat = 120 ∨ x.toNat = 88) ∧ isxdigit h
    then (16, h :: r)
    else if base = 0 then (if z.toNat = 48 then 8 else 10, s)
    else (base, s)
  | z :: _ =>
    if base = 0 then (if z.toNat = 48 then 8 else 10, s) else (base, s)
  | [] => (if base = 0 then 10 else base, s)

/-- The function `strtoul (nptr, &endp, base)`: returns the value and `endp`.  Leading white
space is skipped, one sign is accepted, overflow saturates at `ULONG_MAX`, a minus sign
negates modulo `ULONG_MAX + 1`, and with no digits the result is 0 and `endp = nptr`. -/
def strtoul (nptr : List Char) (base : Nat) : Nat × List Char :=
  let s1 := nptr.dropWhile isspace
  let signed : Bool × List Char :=
    match s1 with
    | c :: r => if c.toNat = 45 then (true, r) else if c.toNat = 43 then (false, r) else (false, s1)
    | [] => (false, s1)
  let bs := strtoul_base base signed.2
  let r := strtoul_digits bs.1 bs.2 0 false
  if r.2.1 = false then (0, nptr)
  else if ULONG_MAX < r.1 then (ULONG_MAX, r.2.2)
  else if signed.1 then ((ULONG_MAX + 1 - r.1) % (ULONG_MAX + 1), r.2.2)
  else (r.1, r.2.2)

/-- The first character of a C string (`arg[0]`); the terminating NUL when it is empty. -/
def first_char (arg : String) : Char :=
  arg.data.headD (Char.ofNat 0)

/-! ## Option handlers and the relocator -/

/-- The handler of `--epiphany-extenal-memory`.  `arg` is `none` when the option was given
without an argument (a null pointer); `strcmp` on a null pointer has no defined result,
which is `none` here. -/
def epiphany_extenal_memory_option_handler {ES M : Type} (arg : Option String)
    (w : World ES M) : Option (SIM_RC × World ES M) :=
  match arg with
  | none => none
  | some a =>
    let w1 : World ES M :=
      if a = "off" then { w with st := { w.st with epiphany_add_ext_mem := 0 } } else w
    let w2 : World ES M :=
      if a = "on" then { w1 with st := { w1.st with epiphany_add_ext_mem := 1 } } else w1
    some (.SIM_RC_OK, w2)

/-- Custom cpu allocation for the mesh simulator (`sim_esim_cpu_relocate`). -/
def sim_esim_cpu_relocate {ES M : Type} (E : Esim ES) (sz : Sizes) (extra_bytes : Nat)
    (w : World ES M) : SIM_RC × World ES M :=
  let r := E.es_set_cpu_state w.st.esim w.st.cpu (sz.sizeof_sim_cpu + extra_bytes)
  let w1 : World ES M :=
    ({ w with st := { w.st with esim := r.2 } }).log
      (.es_set_cpu_state w.st.cpu.addr (sz.sizeof_sim_cpu + extra_bytes) (r.1.map sim_cpu.addr))
  match r.1 with
  | none => (.SIM_RC_FAIL, w1)
  | some new_cpu =>
    let w2 : World ES M :=
      if w1.st.freed = 0 then
        ({ w1 with st := { w1.st with freed := 1 } }).log (.sim_cpu_free w1.st.cpu.addr)
      else w1
    (.SIM_RC_OK, { w2 with st := { w2.st with cpu := new_cpu } })

/-- The handler of `--coreid` (mesh builds). -/
def epiphany_coreid_option_handler {ES M : Type} (E : Esim ES) (sz : Sizes) (arg : String)
    (w : World ES M) : SIM_RC × World ES M :=
  let ul := (strtoul arg.data 0).1
  if !isdigit (first_char arg) || ul == 0 || decide (ul ≥ 4096) then
    (.SIM_RC_FAIL, w.log (.sim_io_eprintf .invalid_coreid))
  else
    let new := ul % 2 ^ 32
    let valid := E.es_valid_coreid w.st.esim new
    let w1 := w.log (.es_valid_coreid new valid)
    if !valid then
      (.SIM_RC_FAIL, w1.log (.sim_io_eprintf .not_in_node))
    else if E.coreid w1.st.esim = new then
      (.SIM_RC_OK, w1)
    else
      let r := E.es_set_coreid w1.st.esim new
      let w2 : World ES M :=
        ({ w1 with st := { w1.st with esim := r.2 } }).log (.es_set_coreid new r.1)
      if r.1 = 0 then
        (.SIM_RC_FAIL, w2.log (.sim_io_eprintf .could_not_set))
      else
        let rr := sim_esim_cpu_relocate E sz sz.cgen_cpu_max_extra_bytes w2
        if rr.1 ≠ .SIM_RC_OK then (.SIM_RC_FAIL, rr.2) else (.SIM_RC_OK, rr.2)

/-! ## Teardown, mesh initialisation, memory provisioning -/

/-- Cover function of `sim_state_free` that frees the cpu buffers as well. -/
def free_state {ES M : Type} (B : Build) (E : Esim ES) (w : World ES M) : World ES M :=
  let w1 := if w.st.modules then w.log .sim_module_uninstall else w
  let w2 : World ES M :=
    if B.WITH_EMESH_SIM then
      ({ w1 with st := { w1.st with esim := E.es_cleanup w1.st.esim } }).log .es_cleanup
    else w1.log .sim_cpu_free_all
  w2.log .sim_state_free

/-- The node configuration built by `sim_esim_init`. -/
def sim_esim_init_node : es_node_cfg := { rank := 0 }

/-- The hard-coded cluster configuration built by `sim_esim_init`. -/
def sim_esim_init_cluster : es_cluster_cfg :=
  { nodes := 1, row_base := 32, col_base := 8, rows := 2, cols := 2,
    core_mem_region := 1024 * 1024, ext_ram_size := 32 * 1024 * 1024,
    ext_ram_node := 0, ext_ram_base := 0x8e000000 }

/-- Initialise the mesh library with the hard-coded topology (`sim_esim_init`). -/
def sim_esim_init {ES M : Type} (E : Esim ES) (w : World ES M) : SIM_RC × World ES M :=
  let r := E.es_init E.zeroed sim_esim_init_node sim_esim_init_cluster
  let w1 : World ES M :=
    ({ w with st := { w.st with esim := r.2 } }).log
      (.es_init sim_esim_init_node sim_esim_init_cluster r.1)
  if r.1 ≠ 0 then (.SIM_RC_FAIL, w1) else (.SIM_RC_OK, w1)

/-- One probe-then-install pair of `sim_open`:
`if (sim_core_read_buffer (sd, NULL, read_map, &c, base, 1) == 0)
   sim_do_commandf (sd, "memory region base,size")`. -/
def probe_install {ES M : Type} (C : MemCore M) (base size : Nat) (w : World ES M) :
    World ES M :=
  let n := C.sim_core_read_buffer w.st.core base
  let w1 := w.log (.sim_core_read_buffer base n)
  if n = 0 then
    ({ w1 with st := { w1.st with core := C.memory_region w1.st.core base size } }).log
      (.sim_do_commandf_memory_region base size)
  else w1

/-- The block "Allocate core managed memory if none specified by user" of `sim_open`. -/
def provision_memory {ES M : Type} (B : Build) (C : MemCore M) (F : Framework ES M)
    (L : MemLayout) (w : World ES M) : World ES M :=
  if B.WITH_HW then
    w.exec F.sim_hw_parse .sim_hw_parse
  else
    let w1 := probe_install C 0 L.EPIPHANY_DEFAULT_MEM_SIZE w
    if w1.st.epiphany_add_ext_mem ≠ 0 then
      let w2 := probe_install C L.EPIPHANY_DEFAULT_EXT_MEM_BANK0_START
        L.EPIPHANY_DEFAULT_EXT_MEM_BANK_SIZE w1
      probe_install C L.EPIPHANY_DEFAULT_EXT_MEM_BANK1_START
        L.EPIPHANY_DEFAULT_EXT_MEM_BANK_SIZE w2
    else w1

/-! ## The two loops over the cpu table -/

/-- The loop `for (i = 0; i < MAX_NR_PROCESSORS; ++i)` of `sim_open`, whose body takes
`cpu = STATE_CPU (sd, i)` and writes `CPU_CPU_DESC (cpu) = cd` and `CPU_DISASSEMBLER (cpu)`.
Returns the value of `i` when the loop ends, and the world. -/
def attach_loop {ES M : Type} (B : Build) (F : Framework ES M) (cd : Nat) (i : Nat)
    (w : World ES M) : Nat × World ES M :=
  if i < B.MAX_NR_PROCESSORS then
    attach_loop B F cd (i + 1) (w.exec (F.attach_STATE_CPU i cd) (.attach_STATE_CPU i))
  else (i, w)
termination_by B.MAX_NR_PROCESSORS - i

/-- The loop `for (c = 0; c < MAX_NR_PROCESSORS; ++c)` of `sim_open`, whose body clears
`CPU_EPIPHANY_MISC_PROFILE (STATE_CPU (sd, i))` and installs the profile callback of
`STATE_CPU (sd, i)`.  The loop counts with `c`; the body passes `i`, the variable of the
earlier loop, to `STATE_CPU`.  (`c` is a `char`: the count is exact when
`MAX_NR_PROCESSORS` does not exceed `CHAR_MAX`.) -/
def profile_loop {ES M : Type} (B : Build) (F : Framework ES M) (i : Nat) (c : Nat)
    (w : World ES M) : World ES M :=
  if c < B.MAX_NR_PROCESSORS then
    profile_loop B F i (c + 1) (w.exec (F.hook_STATE_CPU i) (.hook_STATE_CPU i))
  else w
termination_by B.MAX_NR_PROCESSORS - c

/-! ## `sim_open` and `sim_create_inferior` -/

/-- What `sim_open` hands back: a null descriptor or the descriptor. -/
inductive Opened where
  | null
  | desc
  deriving DecidableEq, Repr

/-- The first part of `sim_open`, from `sim_state_alloc` to `sim_parse_args`.  `.inl` is
an early exit (the world after `free_state`, the caller gets a null descriptor); `.inr` is
the world in which option parsing has succeeded.  `w0` carries the statics of the process;
the descriptor fields are those set up by `sim_state_alloc`. -/
def sim_open_parse {ES M : Type} (B : Build) (E : Esim ES) (F : Framework ES M)
    (kind : SIM_OPEN_KIND) (argv : List String) (w0 : World ES M) :
    World ES M ⊕ World ES M :=
  let w := w0.exec (F.sim_state_alloc kind) .sim_state_alloc
  -- The cpu data is kept in a separately allocated chunk of memory.
  let a := w.call F.sim_cpu_alloc_all .sim_cpu_alloc_all
  if a.1 ≠ .SIM_RC_OK then .inl (free_state B E a.2) else
  -- #if WITH_EMESH_SIM
  let m := if B.WITH_EMESH_SIM then sim_esim_init E a.2 else (.SIM_RC_OK, a.2)
  if m.1 ≠ .SIM_RC_OK then
    .inl (free_state B E (m.2.log (.sim_io_eprintf .esim_init_failed))) else
  let p := m.2.call F.sim_pre_argv_init .sim_pre_argv_init
  if p.1 ≠ .SIM_RC_OK then .inl (free_state B E p.2) else
  -- #ifdef HAVE_DV_SOCKSER
  let d := if B.HAVE_DV_SOCKSER then p.2.call F.dv_sockser_install .dv_sockser_install
           else (.SIM_RC_OK, p.2)
  if d.1 ≠ .SIM_RC_OK then .inl (free_state B E d.2) else
  let t := d.2.exec F.sim_add_option_table .sim_add_option_table
  let g := t.call (F.sim_parse_args argv) .sim_parse_args
  if g.1 ≠ .SIM_RC_OK then .inl (free_state B E g.2) else
  .inr g.2

/-- The second part of `sim_open`, from the identity check to the end, run in the world
`g` in which option parsing has succeeded. -/
def sim_open_finish {ES M : Type} (B : Build) (E : Esim ES) (C : MemCore M)
    (F : Framework ES M) (L : MemLayout) (g : World ES M) : Opened × World ES M :=
  -- #if WITH_EMESH_SIM: coreid must be set on command-line when running in stand-alone
  let v : Bool × World ES M :=
    if B.WITH_EMESH_SIM ∧ g.st.kind = .SIM_OPEN_STANDALONE then
      (E.es_valid_coreid g.st.esim (E.coreid g.st.esim),
       g.log (.es_valid_coreid (E.coreid g.st.esim)
         (E.es_valid_coreid g.st.esim (E.coreid g.st.esim))))
    else (true, g)
  if !v.1 then
    (.null, free_state B E (v.2.log (.sim_io_eprintf .coreid_must_be_set))) else
  -- Allocate core managed memory if none specified by user.
  let mem := provision_memory B C F L v.2
  -- check for/establish the reference program image
  let an := mem.call F.sim_analyze_program .sim_analyze_program
  if an.1 ≠ .SIM_RC_OK then (.null, free_state B E an.2) else
  -- Establish any remaining configuration options.
  let cf := an.2.call F.sim_config .sim_config
  if cf.1 ≠ .SIM_RC_OK then (.null, free_state B E cf.2) else
  let po := cf.2.call F.sim_post_argv_init .sim_post_argv_init
  if po.1 ≠ .SIM_RC_OK then (.null, free_state B E po.2) else
  -- Open a copy of the cpu descriptor table.
  let o := po.2.log .epiphany_cgen_cpu_open_1
  let al := attach_loop B F F.epiphany_cgen_cpu_open_1 0 o
  let o1 := al.2.log .epiphany_cgen_init_dis
  -- Initialize various cgen things not done by common framework.
  let o2 := o1.exec F.cgen_init .cgen_init
  -- the loop over c, entered with the value of i that the earlier loop left
  let o3 := profile_loop B F al.1 0 o2
  -- Store in a global so things like sparc32_dump_regs can be invoked
  let o4 : World ES M :=
    { o3 with st := { o3.st with current_state := true, is_sim_opened := 1 } }
  (.desc, o4.log .cgen_init_accurate_fpu)

/-- Create an instance of the simulator (`sim_open`): the two parts in sequence. -/
def sim_open {ES M : Type} (B : Build) (E : Esim ES) (C : MemCore M) (F : Framework ES M)
    (L : MemLayout) (kind : SIM_OPEN_KIND) (argv : List String) (w0 : World ES M) :
    Opened × World ES M :=
  match sim_open_parse B E F kind argv w0 with
  | .inl wf => (.null, wf)
  | .inr g => sim_open_finish B E C F L g

/-- How a call that may block ends: it returns a code, or it never returns (`blocked`
carries the state reached when the barrier was entered). -/
inductive Run (ES M : Type) where
  | ret (rc : SIM_RC) (w : World ES M)
  | blocked (w : World ES M)

/-- The first part of `sim_create_inferior`: set the program counter to the start address
of the image (0 without an image) and, under `EPIPHANY_LINUX`, the two control registers. -/
def set_start_pc {ES M : Type} (B : Build) (abfd : Option Nat) (w : World ES M) :
    World ES M :=
  let addr := match abfd with
    | some a => a
    | none => 0
  let w1 := w.log (.sim_pc_set addr)
  if B.EPIPHANY_LINUX then
    (w1.log (.epiphanybf_h_cr_set false 0x1f00000)).log (.epiphanybf_h_cr_set true 0x1f00000)
  else w1

/-- Prepare the program for execution (`sim_create_inferior`).  `abfd` is the start address
of the program image when there is one. -/
def sim_create_inferior {ES M : Type} (B : Build) (E : Esim ES) (abfd : Option Nat)
    (w : World ES M) : Run ES M :=
  let w2 := set_start_pc B abfd w
  if B.WITH_EMESH_SIM then
    let ok := E.es_valid_coreid w2.st.esim (E.coreid w2.st.esim)
    let w3 := w2.log (.es_valid_coreid (E.coreid w2.st.esim) ok)
    if !ok then
      if w3.st.kind = .SIM_OPEN_STANDALONE then
        .ret .SIM_RC_FAIL (w3.log (.sim_io_eprintf .invalid_coreid_standalone))
      else
        .ret .SIM_RC_FAIL (w3.log (.sim_io_eprintf .invalid_coreid_debug))
    else
      -- Set coreid in cpu register
      let w4 := w3.log (.epiphanybf_h_coremesh_registers_set w3.st.cpu.addr 1
        (E.coreid w3.st.esim))
      let w5 := w4.log (.sim_io_eprintf .waiting)
      match E.es_wait_run w5.st.esim with
      | none => .blocked (w5.log .es_wait_run)
      | some es =>
        let w6 : World ES M := ({ w5 with st := { w5.st with esim := es } }).log .es_wait_run
        .ret .SIM_RC_OK (w6.log (.sim_io_eprintf .done))
  else .ret .SIM_RC_OK w2

/-! ## Reference models of the collaborators

Used to evaluate the code on concrete inputs. -/

/-- Modelled from the spec: the state of the mesh library (`emesh.h` is not part of this
file): the topology, the identifier held by this process (0: none), the identifiers held
by sibling processes, and the address of the next record the library hands out. -/
structure es_model where
  cluster : es_cluster_cfg
  coreid : Nat
  taken : List Nat
  next_cpu : Nat
  shm_left : Nat
  deriving DecidableEq, Repr

/-- Modelled from the spec: `is_member` (`es_valid_coreid`, whose code is not part of this
file) "decodes identifier into (row, column) per the topology's encoding and checks both
fall inside [rows, cols)"; the encoding of a 12-bit identifier is row = upper six bits,
column = lower six bits, and the window starts at the row and column base. -/
def es_model.valid (e : es_model) (coreid : Nat) : Bool :=
  decide (e.cluster.row_base ≤ coreid / 64 ∧ coreid / 64 < e.cluster.row_base + e.cluster.rows ∧
    e.cluster.col_base ≤ coreid % 64 ∧ coreid % 64 < e.cluster.col_base + e.cluster.cols)

/-- Modelled from the spec: the mesh library (`emesh.h` is not part of this file).
`reserve` "fails with ReservationConflict if already held by a different process";
`es_set_cpu_state` hands out a fresh record that keeps the header of the old one, and
fails when the shared store is exhausted; the barrier releases. -/
def mesh : Esim es_model where
  zeroed := { cluster := ⟨0, 0, 0, 0, 0, 0, 0, 0, 0⟩, coreid := 0, taken := [],
              next_cpu := 0, shm_left := 0 }
  coreid := es_model.coreid
  es_init := fun e _ cluster => (0, { e with cluster := cluster, next_cpu := 1000, shm_left := 2 })
  es_valid_coreid := es_model.valid
  es_set_coreid := fun e id =>
    if id ∈ e.taken then (0, e) else (1, { e with coreid := id })
  es_set_cpu_state := fun e old _ =>
    if e.shm_left = 0 then (none, e)
    else (some { old with addr := e.next_cpu },
          { e with next_cpu := e.next_cpu + 1, shm_left := e.shm_left - 1 })
  es_cleanup := fun e => { e with coreid := 0 }
  es_wait_run := fun e => some e

/-- Modelled from the spec: the memory core (not part of this file) as the set of
provisioned regions, "(base address, length) pair describing a provisioned backing store
range"; an address is backed when some region covers it. -/
def regions : MemCore (List (Nat × Nat)) where
  sim_core_read_buffer := fun m a =>
    if m.any (fun r => decide (r.1 ≤ a ∧ a < r.1 + r.2)) then 1 else 0
  memory_region := fun m base size => m ++ [(base, size)]

/-- A memory core on which every `memory region` command fails, leaving the map as it
was. -/
def regions_failing : MemCore (List (Nat × Nat)) where
  sim_core_read_buffer := regions.sim_core_read_buffer
  memory_region := fun m _ _ => m

/-- A framework in which every step succeeds; `sim_cpu_alloc_all (sd, 1, ..)` allocates the
one record at `addr`, `sim_pre_argv_init` installs the modules, the argument vector is
not interpreted, and the contents of the cpu records are not kept. -/
def fw_ok (ES M : Type) (addr : Nat) : Framework ES M where
  sim_state_alloc := fun kind st =>
    { st with kind := kind, modules := false, current_state := false }
  sim_cpu_alloc_all := fun st =>
    (.SIM_RC_OK, { st with cpu := ⟨addr⟩ })
  sim_pre_argv_init := fun st => (.SIM_RC_OK, { st with modules := true })
  dv_sockser_install := fun st => (.SIM_RC_OK, st)
  sim_add_option_table := fun st => st
  sim_parse_args := fun _ st => (.SIM_RC_OK, st)
  sim_hw_parse := fun st => st
  sim_analyze_program := fun st => (.SIM_RC_OK, st)
  sim_config := fun st => (.SIM_RC_OK, st)
  sim_post_argv_init := fun st => (.SIM_RC_OK, st)
  epiphany_cgen_cpu_open_1 := 1
  cgen_init := fun st => st
  attach_STATE_CPU := fun _ _ st => st
  hook_STATE_CPU := fun _ st => st

/-- A framework in which `sim_config` fails and every other step succeeds. -/
def fw_config_fails (ES M : Type) (addr : Nat) : Framework ES M :=
  { fw_ok ES M addr with sim_config := fun st => (.SIM_RC_FAIL, st) }

/-- The state of a process that has just started: the statics have their initial values. -/
def process_start {ES M : Type} (es : ES) (m : M) : World ES M :=
  { st := { kind := .SIM_OPEN_DEBUG, modules := false, esim := es, core := m,
            cpu := ⟨0⟩,
            epiphany_add_ext_mem := 1, freed := 0, current_state := false,
            is_sim_opened := 0 },
    trace := [] }

/-- The mesh build without hardware description, with a cpu table of one processor. -/
def mesh_build : Build :=
  { WITH_EMESH_SIM := true, WITH_HW := false, HAVE_DV_SOCKSER := false,
    EPIPHANY_LINUX := false, MAX_NR_PROCESSORS := 1 }

/-- An address map for evaluation (1 MiB of core memory, two 16 MiB banks). -/
def layout : MemLayout :=
  { EPIPHANY_DEFAULT_MEM_SIZE := 0x100000,
    EPIPHANY_DEFAULT_EXT_MEM_BANK0_START := 0x80000000,
    EPIPHANY_DEFAULT_EXT_MEM_BANK1_START := 0x81000000,
    EPIPHANY_DEFAULT_EXT_MEM_BANK_SIZE := 0x1000000 }

/-- The world in which the handlers are evaluated: the process has just started and the
mesh library has been initialised by `sim_esim_init` with the hard-coded topology. -/
def hardcoded_world : World es_model Unit :=
  { (sim_esim_init mesh (process_start mesh.zeroed ())).2 with trace := [] }

/-- Record sizes for evaluation. -/
def sizes : Sizes := { sizeof_sim_cpu := 100, cgen_cpu_max_extra_bytes := 20 }

/-! ## Vocabulary of the statements -/

/-- The event starts execution of the program: the identifier is published to the core-mesh
register, or the barrier is entered. -/
def Event.starts_execution : Event → Bool
  | .epiphanybf_h_coremesh_registers_set _ _ _ => true
  | .es_wait_run => true
  | _ => false

/-- A run of `sim_esim_cpu_relocate` calls with the given `extra_bytes` arguments, one after
the other; returns the code of each call and the final world. -/
def relocate_calls {ES M : Type} (E : Esim ES) (sz : Sizes) :
    List Nat → World ES M → List SIM_RC × World ES M
  | [], w => ([], w)
  | extra :: rest, w =>
    let r := sim_esim_cpu_relocate E sz extra w
    let rs := relocate_calls E sz rest r.2
    (r.1 :: rs.1, rs.2)

/-- The event is a call of `sim_cpu_free`. -/
def Event.is_sim_cpu_free : Event → Bool
  | .sim_cpu_free _ => true
  | _ => false

/-- The event is a diagnostic. -/
def Event.is_diag : Event → Bool
  | .sim_io_eprintf _ => true
  | _ => false

/-- The event is a step of `sim_open` whose result the code inspects, and that result is a
failure: a framework step returning `SIM_RC_FAIL`, `es_init` returning nonzero, or the
identity check of a stand-alone instance returning false. -/
def Event.failed_edge : Event → Bool
  | .sim_cpu_alloc_all .SIM_RC_FAIL => true
  | .es_init _ _ (_ + 1) => true
  | .sim_pre_argv_init .SIM_RC_FAIL => true
  | .dv_sockser_install .SIM_RC_FAIL => true
  | .sim_parse_args .SIM_RC_FAIL => true
  | .es_valid_coreid _ false => true
  | .sim_analyze_program .SIM_RC_FAIL => true
  | .sim_config .SIM_RC_FAIL => true
  | .sim_post_argv_init .SIM_RC_FAIL => true
  | _ => false

/-- The regions installed by the `memory region` commands of a trace, in order. -/
def installs : List Event → List (Nat × Nat)
  | [] => []
  | .sim_do_commandf_memory_region base size :: rest => (base, size) :: installs rest
  | _ :: rest => installs rest

/-- The reference rule for one region, after the words of the specification
(`ensure_region`): "probes whether base is already readable through any existing mapping;
if not, installs a new mapping of exactly length bytes at base".  Returns the new map and
the regions installed. -/
def ensure_region {M : Type} (C : MemCore M) (m : M) (base length : Nat) :
    M × List (Nat × Nat) :=
  if C.sim_core_read_buffer m base = 0 then (C.memory_region m base length, [(base, length)])
  else (m, [])

/-- The requests of the reference rule, in the fixed order "primary region first, then each
extension bank"; the banks are requested only when the external-memory flag is on. -/
def provision_requests (L : MemLayout) (ext_mem : Bool) : List (Nat × Nat) :=
  (0, L.EPIPHANY_DEFAULT_MEM_SIZE) ::
    (if ext_mem then
      [(L.EPIPHANY_DEFAULT_EXT_MEM_BANK0_START, L.EPIPHANY_DEFAULT_EXT_MEM_BANK_SIZE),
       (L.EPIPHANY_DEFAULT_EXT_MEM_BANK1_START, L.EPIPHANY_DEFAULT_EXT_MEM_BANK_SIZE)]
     else [])

/-- The reference rule for memory provisioning: `ensure_region` on every request in
order. -/
def provision_ref {M : Type} (C : MemCore M) : List (Nat × Nat) → M → M × List (Nat × Nat)
  | [], m => (m, [])
  | (base, length) :: rest, m =>
    let r := ensure_region C m base length
    let rs := provision_ref C rest r.1
    (rs.1, r.2 ++ rs.2)

/-- A second instance in a process whose first instance has relocated its record once: the
statics are those left by the first instance, and `sim_cpu_alloc_all` has allocated the
plain record of the second instance at address 600. -/
def second_instance : World es_model Unit :=
  { st := ((fw_ok es_model Unit 600).sim_cpu_alloc_all
            (relocate_calls mesh sizes [20] hardcoded_world).2.st).2,
    trace := [] }

/-- The world in which `sim_open` is evaluated: the process has just started and no memory
region is mapped. -/
def open_world : World es_model (List (Nat × Nat)) :=
  process_start mesh.zeroed []

/-- The world reached by the first part of `sim_open`, whichever way it ended. -/
def parsed_world {ES M : Type} (B : Build) (E : Esim ES) (F : Framework ES M)
    (kind : SIM_OPEN_KIND) (argv : List String) (w0 : World ES M) : World ES M :=
  match sim_open_parse B E F kind argv w0 with
  | .inl r => r
  | .inr g => g

/-- The world after the first part of a stand-alone `sim_open` with no `--coreid` option:
option parsing has succeeded and no identifier is held. -/
def standalone_parsed : World es_model (List (Nat × Nat)) :=
  parsed_world mesh_build mesh (fw_ok _ _ 500) .SIM_OPEN_STANDALONE [] open_world

/-- The world after the option `--coreid 2056` has been handled in `standalone_parsed`:
the identifier 2056 is held. -/
def identified_world : World es_model (List (Nat × Nat)) :=
  (epiphany_coreid_option_handler mesh sizes "2056" standalone_parsed).2

/-- Every event logged since `w0` is a step that did not fail. -/
def Clean {ES M : Type} (w0 w : World ES M) : Prop :=
  ∃ evs, w.trace = w0.trace ++ evs ∧ ∀ x ∈ evs, x.failed_edge = false

/-- The world `r` is the result of `free_state` on a world whose log since `w0` is: steps
that did not fail, then one failed step, then diagnostics only. -/
def FailFast {ES M : Type} (B : Build) (E : Esim ES) (w0 r : World ES M) : Prop :=
  ∃ pre f diag wf, r = free_state B E wf ∧ wf.trace = w0.trace ++ pre ++ f :: diag ∧
    (∀ x ∈ pre, x.failed_edge = false) ∧ f.failed_edge = true ∧
    (∀ x ∈ diag, x.is_diag = true)

/-- What the first part of `sim_open` can produce: an early exit that is fail-fast, or a
world in which no step has failed. -/
def ParseShape {ES M : Type} (B : Build) (E : Esim ES) (w0 : World ES M) :
    World ES M ⊕ World ES M → Prop
  | .inl r => FailFast B E w0 r
  | .inr g => Clean w0 g

/-- What `sim_open` can produce: a null descriptor after a fail-fast exit, or another
result in a world in which no step has failed. -/
def FinishShape {ES M : Type} (B : Build) (E : Esim ES) (w0 : World ES M)
    (r : Opened × World ES M) : Prop :=
  (r.1 = .null ∧ FailFast B E w0 r.2) ∨ (r.1 ≠ .null ∧ Clean w0 r.2)

/-! ## Theorems -/

/-! ### The core-identifier option -/

/-- When the first character is a digit and the parsed value is in [1, 4095], the handler
passes its argument check and continues with the membership test on that value. -/
theorem coreid_handler_accepts {ES M : Type} (E : Esim ES) (sz : Sizes) (arg : String)
    (w : World ES M)
    (hd : isdigit (first_char arg) = true)
    (hv : 1 ≤ (strtoul arg.data 0).1 ∧ (strtoul arg.data 0).1 ≤ 4095) :
    epiphany_coreid_option_handler E sz arg w =
      (let new := (strtoul arg.data 0).1
       let valid := E.es_valid_coreid w.st.esim new
       let w1 := w.log (.es_valid_coreid new valid)
       if !valid then
         (.SIM_RC_FAIL, w1.log (.sim_io_eprintf .not_in_node))
       else if E.coreid w1.st.esim = new then
         (.SIM_RC_OK, w1)
       else
         let r := E.es_set_coreid w1.st.esim new
         let w2 : World ES M :=
           ({ w1 with st := { w1.st with esim := r.2 } }).log (.es_set_coreid new r.1)
         if r.1 = 0 then
           (.SIM_RC_FAIL, w2.log (.sim_io_eprintf .could_not_set))
         else
           let rr := sim_esim_cpu_relocate E sz sz.cgen_cpu_max_extra_bytes w2
           if rr.1 ≠ .SIM_RC_OK then (.SIM_RC_FAIL, rr.2) else (.SIM_RC_OK, rr.2)) := by
  have hmod : (strtoul arg.data 0).1 % 2 ^ 32 = (strtoul arg.data 0).1 :=
    Nat.mod_eq_of_lt (by omega)
  have hc : (!isdigit (first_char arg) || (strtoul arg.data 0).1 == 0
      || decide ((strtoul arg.data 0).1 ≥ 4096)) = false := by
    simp [hd]; omega
  unfold epiphany_coreid_option_handler
  dsimp only
  rw [hc]
  simp only [hmod]
  rfl

/-- When the first character is not a digit, or the parsed value is 0 or at least 4096, the
handler prints the invalid-argument diagnostic and fails, with no other call. -/
theorem coreid_handler_invalid_argument {ES M : Type} (E : Esim ES) (sz : Sizes) (arg : String)
    (w : World ES M)
    (h : isdigit (first_char arg) = false ∨ (strtoul arg.data 0).1 = 0 ∨
         4096 ≤ (strtoul arg.data 0).1) :
    epiphany_coreid_option_handler E sz arg w
      = (.SIM_RC_FAIL, w.log (.sim_io_eprintf .invalid_coreid)) := by
  have hc : (!isdigit (first_char arg) || (strtoul arg.data 0).1 == 0
      || decide ((strtoul arg.data 0).1 ≥ 4096)) = true := by
    rcases h with h | h | h
    · simp [h]
    · simp [h]
    · simp only [Bool.or_eq_true, decide_eq_true_eq]; right; exact h
  unfold epiphany_coreid_option_handler
  dsimp only
  rw [if_pos hc]

/-- C1. For every argument whose parsed value lies outside [1, 4095] or fails the
membership check `es_valid_coreid`, the core-identifier handler returns failure and leaves
the state as it was (in particular the held coreid and `STATE_CPU (sd, 0)`); the only
calls it makes are the diagnostic, or the membership check followed by the diagnostic, so
neither `es_set_coreid` nor `sim_esim_cpu_relocate` is called. -/
theorem coreid_handler_rejects_without_mutation {ES M : Type} (E : Esim ES) (sz : Sizes)
    (arg : String) (w : World ES M)
    (h : ¬ (1 ≤ (strtoul arg.data 0).1 ∧ (strtoul arg.data 0).1 ≤ 4095) ∨
         E.es_valid_coreid w.st.esim (strtoul arg.data 0).1 = false) :
    (epiphany_coreid_option_handler E sz arg w).1 = .SIM_RC_FAIL ∧
    (epiphany_coreid_option_handler E sz arg w).2.st = w.st ∧
    E.coreid (epiphany_coreid_option_handler E sz arg w).2.st.esim = E.coreid w.st.esim ∧
    (epiphany_coreid_option_handler E sz arg w).2.st.cpu = w.st.cpu ∧
    ((epiphany_coreid_option_handler E sz arg w).2.trace
        = w.trace ++ [.sim_io_eprintf .invalid_coreid] ∨
     (epiphany_coreid_option_handler E sz arg w).2.trace
        = w.trace ++ [.es_valid_coreid (strtoul arg.data 0).1 false,
                      .sim_io_eprintf .not_in_node]) := by
  by_cases hc : isdigit (first_char arg) = true ∧
      (1 ≤ (strtoul arg.data 0).1 ∧ (strtoul arg.data 0).1 ≤ 4095)
  · have hv : E.es_valid_coreid w.st.esim (strtoul arg.data 0).1 = false := by
      rcases h with h | h
      · exact absurd hc.2 h
      · exact h
    rw [coreid_handler_accepts E sz arg w hc.1 hc.2]
    simp [hv, World.log]
  · have hi : isdigit (first_char arg) = false ∨ (strtoul arg.data 0).1 = 0 ∨
        4096 ≤ (strtoul arg.data 0).1 := by
      by_cases hd : isdigit (first_char arg) = true
      · right
        have : ¬ (1 ≤ (strtoul arg.data 0).1 ∧ (strtoul arg.data 0).1 ≤ 4095) :=
          fun hr => hc ⟨hd, hr⟩
        omega
      · left
        simpa using hd
    rw [coreid_handler_invalid_argument E sz arg w hi]
    simp [World.log]

/-- C1, evaluated: `coreid 10` under the hard-coded topology (rows 2, cols 2, row base 32,
column base 8) is not a member, and the handler fails leaving the state as it was. -/
theorem coreid_handler_rejects_without_mutation_witness :
    mesh.es_valid_coreid hardcoded_world.st.esim (strtoul "10".data 0).1 = false ∧
    (epiphany_coreid_option_handler mesh sizes "10" hardcoded_world).1 = .SIM_RC_FAIL ∧
    (epiphany_coreid_option_handler mesh sizes "10" hardcoded_world).2.st
      = hardcoded_world.st :=
  ⟨by decide,
   (coreid_handler_rejects_without_mutation mesh sizes "10" hardcoded_world
      (Or.inr (by decide))).1,
   (coreid_handler_rejects_without_mutation mesh sizes "10" hardcoded_world
      (Or.inr (by decide))).2.1⟩

/-- C2, evaluated at arguments with characters trailing the number: `2056abc` is accepted
as 2056 (the identifier is reserved and the record relocated, the handler succeeds), and
`12abc` reaches the membership check as 12 and gets the not-a-member diagnostic instead of
the invalid-argument one. -/
theorem coreid_handler_accepts_trailing_characters :
    (epiphany_coreid_option_handler mesh sizes "2056abc" hardcoded_world).1 = .SIM_RC_OK ∧
    (epiphany_coreid_option_handler mesh sizes "2056abc" hardcoded_world).2.st.esim.coreid
      = 2056 ∧
    (epiphany_coreid_option_handler mesh sizes "2056abc" hardcoded_world).2.trace
      = [.es_valid_coreid 2056 true, .es_set_coreid 2056 1,
         .es_set_cpu_state 0 120 (some 1000), .sim_cpu_free 0] ∧
    (epiphany_coreid_option_handler mesh sizes "12abc" hardcoded_world).2.trace
      = [.es_valid_coreid 12 false, .sim_io_eprintf .not_in_node] := by
  decide

/-- C3, as amended. For every argument whose first character is a decimal digit and whose
value `v` is in [1, 4095] and a topology member: if `v` is the identifier already held the handler
succeeds after the membership check alone; otherwise it calls `es_set_coreid (v)` next,
fails (after the diagnostic, with no relocation) when that returns 0, and when it returns
nonzero runs `sim_esim_cpu_relocate` and succeeds exactly when the relocation does. -/
theorem coreid_handler_valid_member {ES M : Type} (E : Esim ES) (sz : Sizes) (arg : String)
    (w : World ES M)
    (hd : isdigit (first_char arg) = true)
    (hv : 1 ≤ (strtoul arg.data 0).1 ∧ (strtoul arg.data 0).1 ≤ 4095)
    (hm : E.es_valid_coreid w.st.esim (strtoul arg.data 0).1 = true) :
    (E.coreid w.st.esim = (strtoul arg.data 0).1 →
      epiphany_coreid_option_handler E sz arg w
        = (.SIM_RC_OK, w.log (.es_valid_coreid (strtoul arg.data 0).1 true))) ∧
    (E.coreid w.st.esim ≠ (strtoul arg.data 0).1 →
      ((E.es_set_coreid w.st.esim (strtoul arg.data 0).1).1 = 0 →
        epiphany_coreid_option_handler E sz arg w
          = (.SIM_RC_FAIL,
             { st := { w.st with esim := (E.es_set_coreid w.st.esim (strtoul arg.data 0).1).2 },
               trace := w.trace ++ [.es_valid_coreid (strtoul arg.data 0).1 true,
                                    .es_set_coreid (strtoul arg.data 0).1 0,
                                    .sim_io_eprintf .could_not_set] })) ∧
      ((E.es_set_coreid w.st.esim (strtoul arg.data 0).1).1 ≠ 0 →
        (epiphany_coreid_option_handler E sz arg w).2
          = (sim_esim_cpu_relocate E sz sz.cgen_cpu_max_extra_bytes
              { st := { w.st with esim := (E.es_set_coreid w.st.esim (strtoul arg.data 0).1).2 },
                trace := w.trace ++ [.es_valid_coreid (strtoul arg.data 0).1 true,
                                     .es_set_coreid (strtoul arg.data 0).1
                                       (E.es_set_coreid w.st.esim (strtoul arg.data 0).1).1] }).2 ∧
        ((epiphany_coreid_option_handler E sz arg w).1 = .SIM_RC_OK ↔
          (sim_esim_cpu_relocate E sz sz.cgen_cpu_max_extra_bytes
              { st := { w.st with esim := (E.es_set_coreid w.st.esim (strtoul arg.data 0).1).2 },
                trace := w.trace ++ [.es_valid_coreid (strtoul arg.data 0).1 true,
                                     .es_set_coreid (strtoul arg.data 0).1
                                       (E.es_set_coreid w.st.esim (strtoul arg.data 0).1).1] }).1
            = .SIM_RC_OK))) := by
  rw [coreid_handler_accepts E sz arg w hd hv]
  refine ⟨fun he => ?_, fun hne => ⟨fun h0 => ?_, fun h1 => ?_⟩⟩
  · simp [hm, World.log, he]
  · simp [hm, World.log, hne, h0]
  · simp only [hm, World.log, hne, h1]
    simp only [Bool.not_true, Bool.false_eq_true, if_false, List.append_assoc,
      List.singleton_append, List.cons_append, List.nil_append]
    split <;> simp_all

/-- C3 as amended, evaluated: `coreid 2056` under the hard-coded topology is a member that is not yet
held and can be reserved; the handler ends in the world produced by the relocator run after
the membership check and the reservation. -/
theorem coreid_handler_valid_member_witness :
    isdigit (first_char "2056") = true ∧
    (1 ≤ (strtoul "2056".data 0).1 ∧ (strtoul "2056".data 0).1 ≤ 4095) ∧
    mesh.es_valid_coreid hardcoded_world.st.esim (strtoul "2056".data 0).1 = true ∧
    mesh.coreid hardcoded_world.st.esim ≠ (strtoul "2056".data 0).1 ∧
    (mesh.es_set_coreid hardcoded_world.st.esim (strtoul "2056".data 0).1).1 ≠ 0 ∧
    (epiphany_coreid_option_handler mesh sizes "2056" hardcoded_world).2
      = (sim_esim_cpu_relocate mesh sizes sizes.cgen_cpu_max_extra_bytes
          { st := { hardcoded_world.st with
                    esim := (mesh.es_set_coreid hardcoded_world.st.esim 2056).2 },
            trace := [.es_valid_coreid 2056 true, .es_set_coreid 2056 1] }).2 :=
  ⟨by decide, by decide, by decide, by decide, by decide,
   ((coreid_handler_valid_member mesh sizes "2056" hardcoded_world (by decide) (by decide)
      (by decide)).2 (by decide)).2 (by decide) |>.1⟩

/-- C3 as stated fails for an argument with leading white space or a sign.  The
arguments " 2056" and "+2056" have the value 2056, which is in [1, 4095], a member of the
hard-coded topology and not the identifier held; the handler fails with the
invalid-argument diagnostic as its only call, so `es_set_coreid` is never called and the
identifier held is unchanged. -/
theorem coreid_handler_rejects_leading_space :
    ((strtoul " 2056".data 0).1 = 2056 ∧
     mesh.es_valid_coreid hardcoded_world.st.esim 2056 = true ∧
     mesh.coreid hardcoded_world.st.esim ≠ 2056 ∧
     (epiphany_coreid_option_handler mesh sizes " 2056" hardcoded_world).1 = .SIM_RC_FAIL ∧
     (epiphany_coreid_option_handler mesh sizes " 2056" hardcoded_world).2.trace
       = [.sim_io_eprintf .invalid_coreid] ∧
     (epiphany_coreid_option_handler mesh sizes " 2056" hardcoded_world).2.st.esim.coreid
       = 0) ∧
    ((strtoul "+2056".data 0).1 = 2056 ∧
     (epiphany_coreid_option_handler mesh sizes "+2056" hardcoded_world).1 = .SIM_RC_FAIL ∧
     (epiphany_coreid_option_handler mesh sizes "+2056" hardcoded_world).2.trace
       = [.sim_io_eprintf .invalid_coreid]) := by
  decide

/-! ### The relocator -/

/-- A relocation in which `es_set_cpu_state` returns no record: failure, one logged call,
and only the mesh library's own state may have changed. -/
theorem relocate_none {ES M : Type} (E : Esim ES) (sz : Sizes) (extra_bytes : Nat)
    (w : World ES M)
    (h : (E.es_set_cpu_state w.st.esim w.st.cpu (sz.sizeof_sim_cpu + extra_bytes)).1 = none) :
    sim_esim_cpu_relocate E sz extra_bytes w
      = (.SIM_RC_FAIL,
         { st := { w.st with esim :=
              (E.es_set_cpu_state w.st.esim w.st.cpu (sz.sizeof_sim_cpu + extra_bytes)).2 },
           trace := w.trace ++
              [.es_set_cpu_state w.st.cpu.addr (sz.sizeof_sim_cpu + extra_bytes) none] }) := by
  unfold sim_esim_cpu_relocate
  simp [h, World.log]

/-- A relocation in which `es_set_cpu_state` returns a record: success, the flag `freed` is
set afterwards, and `sim_cpu_free` is called on the old record exactly when the flag was
clear. -/
theorem relocate_some {ES M : Type} (E : Esim ES) (sz : Sizes) (extra_bytes : Nat)
    (w : World ES M) (c : sim_cpu)
    (h : (E.es_set_cpu_state w.st.esim w.st.cpu (sz.sizeof_sim_cpu + extra_bytes)).1 = some c) :
    (sim_esim_cpu_relocate E sz extra_bytes w).1 = .SIM_RC_OK ∧
    (sim_esim_cpu_relocate E sz extra_bytes w).2.st.freed ≠ 0 ∧
    (sim_esim_cpu_relocate E sz extra_bytes w).2.trace.filter Event.is_sim_cpu_free
      = w.trace.filter Event.is_sim_cpu_free ++
          (if w.st.freed = 0 then [.sim_cpu_free w.st.cpu.addr] else []) := by
  unfold sim_esim_cpu_relocate
  by_cases hf : w.st.freed = 0
  · simp [h, World.log, hf, Event.is_sim_cpu_free, List.filter_append]
  · simp [h, World.log, hf, Event.is_sim_cpu_free, List.filter_append]

/-- C4. Whenever `es_set_cpu_state` cannot produce a new record, `sim_esim_cpu_relocate`
returns failure, `STATE_CPU (sd, 0)` is still the old record, the flag `freed` is
unchanged, nothing but the mesh library's own state has changed, and the only call made is
the failed `es_set_cpu_state` (so `sim_cpu_free` is not called). -/
theorem relocate_fails_atomically {ES M : Type} (E : Esim ES) (sz : Sizes)
    (extra_bytes : Nat) (w : World ES M)
    (h : (E.es_set_cpu_state w.st.esim w.st.cpu (sz.sizeof_sim_cpu + extra_bytes)).1 = none) :
    (sim_esim_cpu_relocate E sz extra_bytes w).1 = .SIM_RC_FAIL ∧
    (sim_esim_cpu_relocate E sz extra_bytes w).2.st.cpu = w.st.cpu ∧
    (sim_esim_cpu_relocate E sz extra_bytes w).2.st.freed = w.st.freed ∧
    (sim_esim_cpu_relocate E sz extra_bytes w).2.st
      = { w.st with esim :=
            (E.es_set_cpu_state w.st.esim w.st.cpu (sz.sizeof_sim_cpu + extra_bytes)).2 } ∧
    (sim_esim_cpu_relocate E sz extra_bytes w).2.trace
      = w.trace ++ [.es_set_cpu_state w.st.cpu.addr (sz.sizeof_sim_cpu + extra_bytes) none] := by
  rw [relocate_none E sz extra_bytes w h]
  exact ⟨rfl, rfl, rfl, rfl, rfl⟩

/-- C4, evaluated: before the mesh library is initialised its store is empty, so
`es_set_cpu_state` fails; the relocator fails and the record is the one it was. -/
theorem relocate_fails_atomically_witness :
    (mesh.es_set_cpu_state (process_start mesh.zeroed ()).st.esim
        (process_start mesh.zeroed ()).st.cpu (sizes.sizeof_sim_cpu + 20)).1 = none ∧
    (sim_esim_cpu_relocate mesh sizes 20 (process_start mesh.zeroed ())).1 = .SIM_RC_FAIL ∧
    (sim_esim_cpu_relocate mesh sizes 20 (process_start mesh.zeroed ())).2.st.cpu
      = (process_start mesh.zeroed ()).st.cpu :=
  ⟨by decide,
   (relocate_fails_atomically mesh sizes 20 (process_start mesh.zeroed ()) (by decide)).1,
   (relocate_fails_atomically mesh sizes 20 (process_start mesh.zeroed ()) (by decide)).2.1⟩

/-- Once the flag `freed` is set, no run of relocations calls `sim_cpu_free`. -/
theorem relocate_calls_no_free {ES M : Type} (E : Esim ES) (sz : Sizes) (calls : List Nat) :
    ∀ w : World ES M, w.st.freed ≠ 0 →
      (relocate_calls E sz calls w).2.trace.filter Event.is_sim_cpu_free
        = w.trace.filter Event.is_sim_cpu_free := by
  induction calls with
  | nil => intro w _; rfl
  | cons extra rest ih =>
    intro w hf
    simp only [relocate_calls]
    cases hr : (E.es_set_cpu_state w.st.esim w.st.cpu (sz.sizeof_sim_cpu + extra)).1 with
    | none =>
      simp only [relocate_none E sz extra w hr]
      rw [ih]
      · simp [List.filter_append, Event.is_sim_cpu_free]
      · exact hf
    | some c =>
      have h := relocate_some E sz extra w c hr
      rw [ih _ h.2.1, h.2.2]
      simp [hf]

/-- C5, as amended. For an instance that starts with the flag `freed` clear and every
sequence of `sim_esim_cpu_relocate` calls: the calls of `sim_cpu_free` made by the sequence
are none when no relocation has succeeded, and exactly one, on the record the instance
started with, when some relocation has succeeded.  As this holds for every sequence, it
holds for every initial part of one: the record is released in the first successful
relocation, never in a failed one, and never again later. -/
theorem relocate_frees_original_once {ES M : Type} (E : Esim ES) (sz : Sizes)
    (calls : List Nat) (w : World ES M) (h : w.st.freed = 0) :
    (relocate_calls E sz calls w).2.trace.filter Event.is_sim_cpu_free
      = w.trace.filter Event.is_sim_cpu_free ++
          (if SIM_RC.SIM_RC_OK ∈ (relocate_calls E sz calls w).1
           then [.sim_cpu_free w.st.cpu.addr] else []) := by
  induction calls generalizing w with
  | nil => simp [relocate_calls]
  | cons extra rest ih =>
    simp only [relocate_calls]
    cases hr : (E.es_set_cpu_state w.st.esim w.st.cpu (sz.sizeof_sim_cpu + extra)).1 with
    | none =>
      simp only [relocate_none E sz extra w hr]
      rw [ih]
      · simp [List.filter_append, Event.is_sim_cpu_free]
      · exact h
    | some c =>
      have h1 := relocate_some E sz extra w c hr
      rw [relocate_calls_no_free E sz rest _ h1.2.1, h1.2.2]
      simp [h1.1, h]

/-- C5 as amended, evaluated: three relocations after `sim_esim_init`, of which the first
two succeed and the third fails, release the original record (address 0) once. -/
theorem relocate_frees_original_once_witness :
    hardcoded_world.st.freed = 0 ∧
    (relocate_calls mesh sizes [20, 20, 20] hardcoded_world).1
      = [.SIM_RC_OK, .SIM_RC_OK, .SIM_RC_FAIL] ∧
    (relocate_calls mesh sizes [20, 20, 20] hardcoded_world).2.trace.filter
        Event.is_sim_cpu_free
      = [.sim_cpu_free 0] :=
  ⟨by decide, by decide,
   by simpa using relocate_frees_original_once mesh sizes [20, 20, 20] hardcoded_world
        (by decide)⟩

/-- C5 as stated fails on two runs.  An instance whose only relocation fails never has its
record released by `sim_cpu_free`.  And a second instance of the same process, whose plain
record is at address 600, relocates successfully without `sim_cpu_free` being called: the
flag `freed` is a static of the function, already set by the first instance. -/
theorem relocate_free_count_counterexample :
    ((relocate_calls mesh sizes [20] (process_start mesh.zeroed ())).1 = [.SIM_RC_FAIL] ∧
     (relocate_calls mesh sizes [20] (process_start mesh.zeroed ())).2.trace.filter
        Event.is_sim_cpu_free = []) ∧
    (second_instance.st.cpu.addr = 600 ∧
     (relocate_calls mesh sizes [20] second_instance).1 = [.SIM_RC_OK] ∧
     (relocate_calls mesh sizes [20] second_instance).2.trace
        = [.es_set_cpu_state 600 120 (some 1001)] ∧
     (relocate_calls mesh sizes [20] second_instance).2.st.cpu.addr = 1001) := by
  decide

/-! ### The external-memory option -/

/-- C9, evaluated at the absent argument: with a null `arg` the handler has no defined
result (`strcmp` is applied to the null pointer).  For every argument that is present it
returns success, and the flag is 1 after `on`, 0 after `off`, and unchanged otherwise. -/
theorem extenal_memory_handler_null_argument {ES M : Type} (w : World ES M) :
    epiphany_extenal_memory_option_handler none w = none ∧
    ∀ a : String, epiphany_extenal_memory_option_handler (some a) w
      = some (.SIM_RC_OK,
          { w with st := { w.st with epiphany_add_ext_mem :=
              if a = "on" then 1 else if a = "off" then 0
              else w.st.epiphany_add_ext_mem } }) := by
  refine ⟨rfl, fun a => ?_⟩
  unfold epiphany_extenal_memory_option_handler
  by_cases h1 : a = "on"
  · subst h1; simp
  · by_cases h2 : a = "off"
    · subst h2; simp
    · simp [h1, h2]

/-! ### Identity validation -/

/-- The first part of `sim_create_inferior` leaves the state as it is. -/
theorem set_start_pc_st {ES M : Type} (B : Build) (abfd : Option Nat) (w : World ES M) :
    (set_start_pc B abfd w).st = w.st := by
  unfold set_start_pc
  dsimp only
  split <;> rfl

/-- The first part of `sim_create_inferior` neither publishes the identifier nor enters the
barrier. -/
theorem set_start_pc_trace {ES M : Type} (B : Build) (abfd : Option Nat) (w : World ES M) :
    ∃ evs, (set_start_pc B abfd w).trace = w.trace ++ evs ∧
      ∀ e ∈ evs, e.starts_execution = false := by
  unfold set_start_pc
  dsimp only
  split
  · exact ⟨[.sim_pc_set (match abfd with | some a => a | none => 0),
            .epiphanybf_h_cr_set false 0x1f00000, .epiphanybf_h_cr_set true 0x1f00000],
      by simp [World.log], by simp [Event.starts_execution]⟩
  · exact ⟨[.sim_pc_set (match abfd with | some a => a | none => 0)],
      by simp [World.log], by simp [Event.starts_execution]⟩

/-- C6. In a mesh build: (1) when the held identifier fails the validity check,
`sim_create_inferior` returns failure for either open kind, leaves the state as it was, and
after the events `evs` of setting the start pc (none of which publishes the identifier or
enters the barrier) makes only the validity check and one diagnostic; (2) when the
identifier is valid it publishes the identifier to register 1 of the cpu, then enters
`es_wait_run`, and returns success when the barrier releases (if it never releases the call
never returns); (3) a `sim_open` that has parsed its options, is stand-alone and holds an
invalid identifier returns null after the validity check, the diagnostic and the release
of the instance by `free_state`: `sim_module_uninstall` when modules are installed, then
`es_cleanup` on the mesh state, then `sim_state_free`, and nothing else. -/
theorem invalid_identity_never_runs {ES M : Type} (B : Build) (E : Esim ES) (C : MemCore M)
    (F : Framework ES M) (L : MemLayout) (kind : SIM_OPEN_KIND) (argv : List String)
    (abfd : Option Nat) (w w0 : World ES M) (hB : B.WITH_EMESH_SIM = true) :
    (E.es_valid_coreid w.st.esim (E.coreid w.st.esim) = false →
      ∃ d evs, sim_create_inferior B E abfd w
          = .ret .SIM_RC_FAIL
              { st := w.st,
                trace := w.trace ++ evs ++
                  [.es_valid_coreid (E.coreid w.st.esim) false, .sim_io_eprintf d] } ∧
        ∀ e ∈ evs, e.starts_execution = false) ∧
    (E.es_valid_coreid w.st.esim (E.coreid w.st.esim) = true →
      ∃ evs, (∀ e ∈ evs, e.starts_execution = false) ∧
        sim_create_inferior B E abfd w
          = (match E.es_wait_run w.st.esim with
             | some es =>
               .ret .SIM_RC_OK
                { st := { w.st with esim := es },
                  trace := w.trace ++ evs ++
                    [.es_valid_coreid (E.coreid w.st.esim) true,
                     .epiphanybf_h_coremesh_registers_set w.st.cpu.addr 1 (E.coreid w.st.esim),
                     .sim_io_eprintf .waiting, .es_wait_run, .sim_io_eprintf .done] }
             | none =>
               .blocked
                { st := w.st,
                  trace := w.trace ++ evs ++
                    [.es_valid_coreid (E.coreid w.st.esim) true,
                     .epiphanybf_h_coremesh_registers_set w.st.cpu.addr 1 (E.coreid w.st.esim),
                     .sim_io_eprintf .waiting, .es_wait_run] })) ∧
    (∀ g, sim_open_parse B E F kind argv w0 = .inr g →
      g.st.kind = .SIM_OPEN_STANDALONE →
      E.es_valid_coreid g.st.esim (E.coreid g.st.esim) = false →
      sim_open B E C F L kind argv w0
        = (.null, free_state B E
            { st := g.st,
              trace := g.trace ++ [.es_valid_coreid (E.coreid g.st.esim) false,
                                   .sim_io_eprintf .coreid_must_be_set] }) ∧
      (sim_open B E C F L kind argv w0).1 = .null ∧
      (sim_open B E C F L kind argv w0).2.trace
        = g.trace ++ [.es_valid_coreid (E.coreid g.st.esim) false,
                      .sim_io_eprintf .coreid_must_be_set] ++
            (if g.st.modules then [Event.sim_module_uninstall] else []) ++
            [.es_cleanup, .sim_state_free] ∧
      (sim_open B E C F L kind argv w0).2.st
        = { g.st with esim := E.es_cleanup g.st.esim }) := by
  refine ⟨fun hv => ?_, fun hv => ?_, fun g hg hk hv => ?_⟩
  · obtain ⟨evs, ht, hev⟩ := set_start_pc_trace B abfd w
    have hs := set_start_pc_st B abfd w
    by_cases hk : w.st.kind = .SIM_OPEN_STANDALONE
    · refine ⟨.invalid_coreid_standalone, evs, ?_, hev⟩
      unfold sim_create_inferior
      simp [hB, hs, hv, hk, World.log, ht]
    · refine ⟨.invalid_coreid_debug, evs, ?_, hev⟩
      unfold sim_create_inferior
      simp [hB, hs, hv, hk, World.log, ht]
  · obtain ⟨evs, ht, hev⟩ := set_start_pc_trace B abfd w
    have hs := set_start_pc_st B abfd w
    refine ⟨evs, hev, ?_⟩
    unfold sim_create_inferior
    cases hes : E.es_wait_run w.st.esim with
    | none => simp [hB, hs, hv, World.log, ht, hes]
    | some es => simp [hB, hs, hv, World.log, ht, hes]
  · have hopen : sim_open B E C F L kind argv w0
        = (.null, free_state B E
            { st := g.st,
              trace := g.trace ++ [.es_valid_coreid (E.coreid g.st.esim) false,
                                   .sim_io_eprintf .coreid_must_be_set] }) := by
      unfold sim_open
      rw [hg]
      unfold sim_open_finish
      simp [hB, hk, hv, World.log]
    refine ⟨hopen, ?_, ?_, ?_⟩
    · rw [hopen]
    · rw [hopen]
      unfold free_state
      cases hm : g.st.modules <;> simp [hB, hm, World.log]
    · rw [hopen]
      unfold free_state
      cases hm : g.st.modules <;> simp [hB, hm, World.log]

/-- C6, evaluated under the hard-coded topology: with no identifier held,
`sim_create_inferior` fails, and a stand-alone `sim_open` returns null with a log that ends
in the validity check, the diagnostic and the three release calls; with the identifier
2056 held, `sim_create_inferior` publishes it, passes the barrier and succeeds. -/
theorem invalid_identity_never_runs_witness :
    mesh_build.WITH_EMESH_SIM = true ∧
    mesh.es_valid_coreid standalone_parsed.st.esim (mesh.coreid standalone_parsed.st.esim)
      = false ∧
    (∃ d evs, sim_create_inferior mesh_build mesh none standalone_parsed
        = .ret .SIM_RC_FAIL
            { st := standalone_parsed.st,
              trace := standalone_parsed.trace ++ evs ++
                [.es_valid_coreid (mesh.coreid standalone_parsed.st.esim) false,
                 .sim_io_eprintf d] } ∧
      ∀ e ∈ evs, e.starts_execution = false) ∧
    mesh.es_valid_coreid identified_world.st.esim (mesh.coreid identified_world.st.esim)
      = true ∧
    (∃ evs, (∀ e ∈ evs, e.starts_execution = false) ∧
      sim_create_inferior mesh_build mesh none identified_world
        = .ret .SIM_RC_OK
            { st := identified_world.st,
              trace := identified_world.trace ++ evs ++
                [.es_valid_coreid 2056 true,
                 .epiphanybf_h_coremesh_registers_set 1000 1 2056,
                 .sim_io_eprintf .waiting, .es_wait_run, .sim_io_eprintf .done] }) ∧
    sim_open_parse mesh_build mesh (fw_ok _ _ 500) .SIM_OPEN_STANDALONE [] open_world
      = .inr standalone_parsed ∧
    standalone_parsed.st.kind = .SIM_OPEN_STANDALONE ∧
    (sim_open mesh_build mesh regions (fw_ok _ _ 500) layout .SIM_OPEN_STANDALONE []
        open_world).1 = .null ∧
    (sim_open mesh_build mesh regions (fw_ok _ _ 500) layout .SIM_OPEN_STANDALONE []
        open_world).2.trace
      = [.sim_state_alloc, .sim_cpu_alloc_all .SIM_RC_OK,
         .es_init sim_esim_init_node sim_esim_init_cluster 0,
         .sim_pre_argv_init .SIM_RC_OK, .sim_add_option_table,
         .sim_parse_args .SIM_RC_OK,
         .es_valid_coreid 0 false, .sim_io_eprintf .coreid_must_be_set,
         .sim_module_uninstall, .es_cleanup, .sim_state_free] :=
  ⟨rfl, by decide,
   (invalid_identity_never_runs mesh_build mesh regions (fw_ok _ _ 500) layout
      .SIM_OPEN_STANDALONE [] none standalone_parsed open_world rfl).1 (by decide),
   by decide,
   (invalid_identity_never_runs mesh_build mesh regions (fw_ok _ _ 500) layout
      .SIM_OPEN_STANDALONE [] none identified_world open_world rfl).2.1 (by decide),
   rfl, by decide,
   ((invalid_identity_never_runs mesh_build mesh regions (fw_ok _ _ 500) layout
      .SIM_OPEN_STANDALONE [] none standalone_parsed open_world rfl).2.2
      standalone_parsed rfl (by decide) (by decide)).2.1,
   ((invalid_identity_never_runs mesh_build mesh regions (fw_ok _ _ 500) layout
      .SIM_OPEN_STANDALONE [] none standalone_parsed open_world rfl).2.2
      standalone_parsed rfl (by decide) (by decide)).2.2.1.trans (by decide)⟩

/-! ### Memory provisioning -/

/-- The installed regions of a concatenated log. -/
theorem installs_append (a b : List Event) : installs (a ++ b) = installs a ++ installs b := by
  induction a with
  | nil => rfl
  | cons e rest ih => cases e <;> simp [installs, ih]

/-- One probe-then-install pair of the code is one `ensure_region` of the reference. -/
theorem probe_install_eq {ES M : Type} (C : MemCore M) (base size : Nat) (w : World ES M) :
    (probe_install C base size w).st
      = { w.st with core := (ensure_region C w.st.core base size).1 } ∧
    installs (probe_install C base size w).trace
      = installs w.trace ++ (ensure_region C w.st.core base size).2 := by
  unfold probe_install ensure_region
  by_cases h : C.sim_core_read_buffer w.st.core base = 0
  · simp [h, World.log, installs_append, installs]
  · simp [h, World.log, installs_append, installs]

/-- The reference installs a subsequence of its requests, in request order. -/
theorem provision_ref_sublist {M : Type} (C : MemCore M) (reqs : List (Nat × Nat)) (m : M) :
    List.Sublist (provision_ref C reqs m).2 reqs := by
  induction reqs generalizing m with
  | nil => simp [provision_ref]
  | cons r rest ih =>
    obtain ⟨b, s⟩ := r
    simp only [provision_ref, ensure_region]
    split
    · simpa using (ih _)
    · simpa using List.Sublist.cons _ (ih _)

/-- On a memory core that never un-backs an address, the reference keeps backed addresses
backed. -/
theorem provision_ref_mono {M : Type} (C : MemCore M)
    (hmono : ∀ m base size a, C.sim_core_read_buffer m a ≠ 0 →
      C.sim_core_read_buffer (C.memory_region m base size) a ≠ 0)
    (reqs : List (Nat × Nat)) (m : M) (a : Nat) (h : C.sim_core_read_buffer m a ≠ 0) :
    C.sim_core_read_buffer (provision_ref C reqs m).1 a ≠ 0 := by
  induction reqs generalizing m with
  | nil => simpa [provision_ref] using h
  | cons r rest ih =>
    obtain ⟨b, s⟩ := r
    simp only [provision_ref, ensure_region]
    split
    · exact ih _ (hmono _ _ _ _ h)
    · exact ih _ h

/-- On a memory core that honours its contract, after the reference rule every requested
base address is backed. -/
theorem provision_ref_backs {M : Type} (C : MemCore M)
    (hback : ∀ m base size, 0 < size →
      C.sim_core_read_buffer (C.memory_region m base size) base ≠ 0)
    (hmono : ∀ m base size a, C.sim_core_read_buffer m a ≠ 0 →
      C.sim_core_read_buffer (C.memory_region m base size) a ≠ 0)
    (reqs : List (Nat × Nat)) (hpos : ∀ r ∈ reqs, 0 < r.2) (m : M) :
    ∀ r ∈ reqs, C.sim_core_read_buffer (provision_ref C reqs m).1 r.1 ≠ 0 := by
  induction reqs generalizing m with
  | nil => simp
  | cons r rest ih =>
    obtain ⟨b, s⟩ := r
    intro r hr
    rcases List.mem_cons.mp hr with h | h
    · subst h
      simp only [provision_ref, ensure_region]
      split
      · exact provision_ref_mono C hmono _ _ _ (hback _ _ _ (hpos _ (List.mem_cons_self _ _)))
      · exact provision_ref_mono C hmono _ _ _ (by assumption)
    · simp only [provision_ref]
      exact ih (fun x hx => hpos x (List.mem_cons_of_mem _ hx)) _ r h

/-- When every requested base address is backed the reference installs nothing. -/
theorem provision_ref_fixed {M : Type} (C : MemCore M) (reqs : List (Nat × Nat)) (m : M)
    (h : ∀ r ∈ reqs, C.sim_core_read_buffer m r.1 ≠ 0) :
    provision_ref C reqs m = (m, []) := by
  induction reqs with
  | nil => rfl
  | cons r rest ih =>
    obtain ⟨b, s⟩ := r
    have hb : C.sim_core_read_buffer m b ≠ 0 := h (b, s) (List.mem_cons_self _ _)
    simp only [provision_ref, ensure_region, hb, if_false]
    rw [ih (fun x hx => h x (List.mem_cons_of_mem _ hx))]
    rfl

/-- On a memory core that never un-backs an address, every region the reference installs
starts at an address that was not backed before provisioning. -/
theorem provision_ref_unbacked {M : Type} (C : MemCore M)
    (hmono : ∀ m base size a, C.sim_core_read_buffer m a ≠ 0 →
      C.sim_core_read_buffer (C.memory_region m base size) a ≠ 0)
    (reqs : List (Nat × Nat)) (m : M) :
    ∀ r ∈ (provision_ref C reqs m).2, C.sim_core_read_buffer m r.1 = 0 := by
  induction reqs generalizing m with
  | nil => simp [provision_ref]
  | cons r rest ih =>
    obtain ⟨b, s⟩ := r
    intro x hx
    simp only [provision_ref, ensure_region] at hx
    split at hx
    · rename_i h0
      rcases List.mem_append.mp hx with h | h
      · simp at h; subst h; exact h0
      · by_contra hne
        exact hmono m b s x.1 hne (ih _ x h)
    · simp only [List.nil_append] at hx
      exact ih _ x hx

/-- The provisioning block of `sim_open` computes what the reference rule computes. -/
theorem provision_memory_eq {ES M : Type} (B : Build) (C : MemCore M) (F : Framework ES M)
    (L : MemLayout) (w : World ES M) (hHW : B.WITH_HW = false) :
    (provision_memory B C F L w).st
      = { w.st with core :=
            (provision_ref C (provision_requests L (decide (w.st.epiphany_add_ext_mem ≠ 0)))
              w.st.core).1 } ∧
    installs (provision_memory B C F L w).trace
      = installs w.trace ++
          (provision_ref C (provision_requests L (decide (w.st.epiphany_add_ext_mem ≠ 0)))
            w.st.core).2 := by
  unfold provision_memory
  simp only [hHW, Bool.false_eq_true, if_false]
  by_cases hf : w.st.epiphany_add_ext_mem = 0
  · have h1 := probe_install_eq C 0 L.EPIPHANY_DEFAULT_MEM_SIZE w
    have hf1 : (probe_install C 0 L.EPIPHANY_DEFAULT_MEM_SIZE w).st.epiphany_add_ext_mem = 0 := by
      rw [h1.1]; exact hf
    simp [hf, hf1, provision_requests, provision_ref, h1.1, h1.2]
  · have h1 := probe_install_eq C 0 L.EPIPHANY_DEFAULT_MEM_SIZE w
    have hf1 : (probe_install C 0 L.EPIPHANY_DEFAULT_MEM_SIZE w).st.epiphany_add_ext_mem ≠ 0 := by
      rw [h1.1]; exact hf
    have h2 := probe_install_eq C L.EPIPHANY_DEFAULT_EXT_MEM_BANK0_START
      L.EPIPHANY_DEFAULT_EXT_MEM_BANK_SIZE (probe_install C 0 L.EPIPHANY_DEFAULT_MEM_SIZE w)
    have h3 := probe_install_eq C L.EPIPHANY_DEFAULT_EXT_MEM_BANK1_START
      L.EPIPHANY_DEFAULT_EXT_MEM_BANK_SIZE
      (probe_install C L.EPIPHANY_DEFAULT_EXT_MEM_BANK0_START
        L.EPIPHANY_DEFAULT_EXT_MEM_BANK_SIZE (probe_install C 0 L.EPIPHANY_DEFAULT_MEM_SIZE w))
    simp [hf, hf1, provision_requests, provision_ref, h1.1, h1.2, h2.1, h2.2, h3.1, h3.2]

/-- The region-list memory core backs the base of a region of positive size. -/
theorem regions_backs (m : List (Nat × Nat)) (base size : Nat) (h : 0 < size) :
    regions.sim_core_read_buffer (regions.memory_region m base size) base ≠ 0 := by
  simp [regions, h]

/-- The region-list memory core never un-backs an address. -/
theorem regions_mono (m : List (Nat × Nat)) (base size a : Nat)
    (h : regions.sim_core_read_buffer m a ≠ 0) :
    regions.sim_core_read_buffer (regions.memory_region m base size) a ≠ 0 := by
  simp only [regions, ne_eq, ite_eq_right_iff, one_ne_zero, imp_false, not_not] at h ⊢
  simp only [List.any_append, Bool.or_eq_true]
  exact Or.inl h

/-- C8. Without the hardware-description build, the provisioning block of `sim_open` is
the reference rule (`ensure_region` on the primary region, then, when the external-memory
flag is nonzero, on bank 0 and on bank 1): same resulting map, same regions installed in
the same order, and nothing else of the state changes.  The installed regions are a
subsequence of primary, bank 0, bank 1; with the flag zero they are at most the primary
region.  On a memory core that backs the base of a region it installs and never un-backs
an address, with positive sizes, every installed region starts at an address that was not
backed, and provisioning again installs nothing and leaves the state as it is. -/
theorem provision_memory_reference_rule {ES M : Type} (B : Build) (C : MemCore M)
    (F : Framework ES M) (L : MemLayout) (w : World ES M) (hHW : B.WITH_HW = false) :
    (provision_memory B C F L w).st
      = { w.st with core :=
            (provision_ref C (provision_requests L (decide (w.st.epiphany_add_ext_mem ≠ 0)))
              w.st.core).1 } ∧
    installs (provision_memory B C F L w).trace
      = installs w.trace ++
          (provision_ref C (provision_requests L (decide (w.st.epiphany_add_ext_mem ≠ 0)))
            w.st.core).2 ∧
    List.Sublist
      (provision_ref C (provision_requests L (decide (w.st.epiphany_add_ext_mem ≠ 0)))
        w.st.core).2
      [(0, L.EPIPHANY_DEFAULT_MEM_SIZE),
       (L.EPIPHANY_DEFAULT_EXT_MEM_BANK0_START, L.EPIPHANY_DEFAULT_EXT_MEM_BANK_SIZE),
       (L.EPIPHANY_DEFAULT_EXT_MEM_BANK1_START, L.EPIPHANY_DEFAULT_EXT_MEM_BANK_SIZE)] ∧
    (w.st.epiphany_add_ext_mem = 0 →
      List.Sublist
        (provision_ref C (provision_requests L (decide (w.st.epiphany_add_ext_mem ≠ 0)))
          w.st.core).2
        [(0, L.EPIPHANY_DEFAULT_MEM_SIZE)]) ∧
    ((∀ m base size, 0 < size →
        C.sim_core_read_buffer (C.memory_region m base size) base ≠ 0) →
     (∀ m base size a, C.sim_core_read_buffer m a ≠ 0 →
        C.sim_core_read_buffer (C.memory_region m base size) a ≠ 0) →
     0 < L.EPIPHANY_DEFAULT_MEM_SIZE → 0 < L.EPIPHANY_DEFAULT_EXT_MEM_BANK_SIZE →
       (∀ r ∈ (provision_ref C
            (provision_requests L (decide (w.st.epiphany_add_ext_mem ≠ 0))) w.st.core).2,
          C.sim_core_read_buffer w.st.core r.1 = 0) ∧
       (provision_memory B C F L (provision_memory B C F L w)).st
         = (provision_memory B C F L w).st ∧
       installs (provision_memory B C F L (provision_memory B C F L w)).trace
         = installs (provision_memory B C F L w).trace) := by
  have h1 := provision_memory_eq B C F L w hHW
  refine ⟨h1.1, h1.2, ?_, ?_, ?_⟩
  · have hs := provision_ref_sublist C
      (provision_requests L (decide (w.st.epiphany_add_ext_mem ≠ 0))) w.st.core
    refine hs.trans ?_
    unfold provision_requests
    split
    · exact List.Sublist.refl _
    · exact List.Sublist.cons₂ _ (List.nil_sublist _)
  · intro hf
    have hs := provision_ref_sublist C
      (provision_requests L (decide (w.st.epiphany_add_ext_mem ≠ 0))) w.st.core
    simpa [provision_requests, hf] using hs
  · intro hback hmono h0 hb
    have h2 := provision_memory_eq B C F L (provision_memory B C F L w) hHW
    have hflag : (provision_memory B C F L w).st.epiphany_add_ext_mem
        = w.st.epiphany_add_ext_mem := by rw [h1.1]
    have hcore : (provision_memory B C F L w).st.core
        = (provision_ref C (provision_requests L (decide (w.st.epiphany_add_ext_mem ≠ 0)))
            w.st.core).1 := by rw [h1.1]
    have hpos : ∀ r ∈ provision_requests L (decide (w.st.epiphany_add_ext_mem ≠ 0)),
        0 < r.2 := by
      intro r hr
      unfold provision_requests at hr
      rcases List.mem_cons.mp hr with hr | hr
      · subst hr; exact h0
      · split at hr
        · rcases List.mem_cons.mp hr with hr | hr
          · subst hr; exact hb
          · rcases List.mem_cons.mp hr with hr | hr
            · subst hr; exact hb
            · cases hr
        · cases hr
    have hfix := provision_ref_fixed C
      (provision_requests L (decide (w.st.epiphany_add_ext_mem ≠ 0)))
      (provision_ref C (provision_requests L (decide (w.st.epiphany_add_ext_mem ≠ 0)))
        w.st.core).1
      (provision_ref_backs C hback hmono _ hpos w.st.core)
    have hagain : provision_ref C
        (provision_requests L
          (decide ((provision_memory B C F L w).st.epiphany_add_ext_mem ≠ 0)))
        (provision_memory B C F L w).st.core
        = ((provision_memory B C F L w).st.core, []) := by
      rw [hflag, hcore, hfix]
    refine ⟨provision_ref_unbacked C hmono _ _, ?_, ?_⟩
    · rw [h2.1, hagain]
    · rw [h2.2, hagain]
      simp

/-- C8, evaluated on the region-list memory core with nothing mapped and the flag on: the
three regions are installed in order, and provisioning again installs nothing. -/
theorem provision_memory_reference_rule_witness :
    mesh_build.WITH_HW = false ∧
    installs (provision_memory mesh_build regions (fw_ok _ _ 500) layout open_world).trace
      = [(0, 0x100000), (0x80000000, 0x1000000), (0x81000000, 0x1000000)] ∧
    installs (provision_memory mesh_build regions (fw_ok _ _ 500) layout
        (provision_memory mesh_build regions (fw_ok _ _ 500) layout open_world)).trace
      = installs (provision_memory mesh_build regions (fw_ok _ _ 500) layout open_world).trace :=
  ⟨rfl,
   (provision_memory_reference_rule mesh_build regions (fw_ok _ _ 500) layout open_world
      rfl).2.1.trans (by decide),
   ((provision_memory_reference_rule mesh_build regions (fw_ok _ _ 500) layout open_world
      rfl).2.2.2.2 regions_backs regions_mono (by decide) (by decide)).2.2⟩

/-! ### Bootstrap -/

/-- Nothing has failed when nothing has been logged. -/
theorem clean_refl {ES M : Type} (w0 : World ES M) : Clean w0 w0 :=
  ⟨[], by simp, by simp⟩

/-- The predicate `Clean` depends on the log only. -/
theorem clean_trace {ES M : Type} {w0 w w1 : World ES M} (h : Clean w0 w)
    (ht : w1.trace = w.trace) : Clean w0 w1 := by
  obtain ⟨evs, h1, h2⟩ := h
  exact ⟨evs, by rw [ht, h1], h2⟩

/-- Logging an event that is not a failed step keeps the log clean. -/
theorem clean_log {ES M : Type} {w0 w : World ES M} (h : Clean w0 w) (e : Event)
    (he : e.failed_edge = false) : Clean w0 (w.log e) := by
  obtain ⟨evs, h1, h2⟩ := h
  refine ⟨evs ++ [e], by simp [World.log, h1], ?_⟩
  intro x hx
  rcases List.mem_append.mp hx with hx | hx
  · exact h2 x hx
  · simp at hx; subst hx; exact he

/-- A call that returns nothing keeps the log clean. -/
theorem clean_exec {ES M : Type} {w0 w : World ES M} (h : Clean w0 w)
    (f : sim_state ES M → sim_state ES M) (e : Event) (he : e.failed_edge = false) :
    Clean w0 (w.exec f e) :=
  clean_log (w := { w with st := f w.st }) (clean_trace h rfl) e he

/-- A framework call that returns `SIM_RC_OK` keeps the log clean. -/
theorem clean_call {ES M : Type} {w0 w : World ES M} (h : Clean w0 w)
    (f : sim_state ES M → SIM_RC × sim_state ES M) (ev : SIM_RC → Event)
    (hok : ¬ (w.call f ev).1 ≠ .SIM_RC_OK) (hev : (ev .SIM_RC_OK).failed_edge = false) :
    Clean w0 (w.call f ev).2 := by
  have hok1 : (f w.st).1 = .SIM_RC_OK := by simpa [World.call] using hok
  unfold World.call
  rw [hok1]
  exact clean_log (w := { w with st := (f w.st).2 }) (clean_trace h rfl) _ hev

/-- A clean log, then a failed step and diagnostics, then `free_state`: a fail-fast exit. -/
theorem failfast_of_clean {ES M : Type} (B : Build) (E : Esim ES) {w0 w : World ES M}
    (h : Clean w0 w) (wf : World ES M) (f : Event) (diag : List Event)
    (ht : wf.trace = w.trace ++ f :: diag) (hf : f.failed_edge = true)
    (hd : ∀ x ∈ diag, x.is_diag = true) : FailFast B E w0 (free_state B E wf) := by
  obtain ⟨evs, h1, h2⟩ := h
  exact ⟨evs, f, diag, wf, rfl, by rw [ht, h1], h2, hf, hd⟩

/-- A framework call that does not return `SIM_RC_OK`, followed by `free_state`, is a
fail-fast exit. -/
theorem fail_call {ES M : Type} (B : Build) (E : Esim ES) {w0 w : World ES M} (h : Clean w0 w)
    (f : sim_state ES M → SIM_RC × sim_state ES M) (ev : SIM_RC → Event)
    (hfail : (w.call f ev).1 ≠ .SIM_RC_OK) (hev : (ev .SIM_RC_FAIL).failed_edge = true) :
    FailFast B E w0 (free_state B E (w.call f ev).2) := by
  have h1 : (f w.st).1 = .SIM_RC_FAIL := by
    cases hc : (f w.st).1 with
    | SIM_RC_FAIL => rfl
    | SIM_RC_OK => exact absurd (by simpa [World.call] using hc) hfail
  refine failfast_of_clean B E h _ (ev .SIM_RC_FAIL) [] ?_ hev (by simp)
  simp [World.call, World.log, h1]

/-- A successful `sim_esim_init` keeps the log clean. -/
theorem clean_esim_init {ES M : Type} (E : Esim ES) {w0 w : World ES M} (h : Clean w0 w)
    (hok : ¬ (sim_esim_init E w).1 ≠ .SIM_RC_OK) : Clean w0 (sim_esim_init E w).2 := by
  unfold sim_esim_init at hok ⊢
  dsimp only at hok ⊢
  by_cases h0 : (E.es_init E.zeroed sim_esim_init_node sim_esim_init_cluster).1 = 0
  · simp only [h0, ne_eq, not_true_eq_false, if_false]
    exact clean_log (w := { w with st := { w.st with esim := _ } }) (clean_trace h rfl) _ rfl
  · simp [h0] at hok

/-- A failed `sim_esim_init`, its diagnostic and `free_state` are a fail-fast exit. -/
theorem fail_esim_init {ES M : Type} (B : Build) (E : Esim ES) {w0 w : World ES M}
    (h : Clean w0 w) (hfail : (sim_esim_init E w).1 ≠ .SIM_RC_OK) :
    FailFast B E w0
      (free_state B E ((sim_esim_init E w).2.log (.sim_io_eprintf .esim_init_failed))) := by
  unfold sim_esim_init at hfail ⊢
  dsimp only at hfail ⊢
  by_cases h0 : (E.es_init E.zeroed sim_esim_init_node sim_esim_init_cluster).1 = 0
  · simp [h0] at hfail
  · obtain ⟨n, hn⟩ := Nat.exists_eq_succ_of_ne_zero h0
    refine failfast_of_clean B E h _
      (.es_init sim_esim_init_node sim_esim_init_cluster (n + 1))
      [.sim_io_eprintf .esim_init_failed] ?_ rfl (by simp [Event.is_diag])
    simp [h0, World.log, hn]

/-- The mesh-initialisation step of `sim_open`, when it succeeds, keeps the log clean. -/
theorem clean_mesh_step {ES M : Type} (B : Build) (E : Esim ES) {w0 w : World ES M}
    (h : Clean w0 w)
    (hok : ¬ (if B.WITH_EMESH_SIM then sim_esim_init E w else (.SIM_RC_OK, w)).1 ≠ .SIM_RC_OK) :
    Clean w0 (if B.WITH_EMESH_SIM then sim_esim_init E w else (.SIM_RC_OK, w)).2 := by
  cases hB : B.WITH_EMESH_SIM
  · simpa using h
  · simp only [hB, if_true] at hok ⊢
    exact clean_esim_init E h hok

/-- The mesh-initialisation step of `sim_open`, when it fails, gives a fail-fast exit. -/
theorem fail_mesh_step {ES M : Type} (B : Build) (E : Esim ES) {w0 w : World ES M}
    (h : Clean w0 w)
    (hfail : (if B.WITH_EMESH_SIM then sim_esim_init E w else (.SIM_RC_OK, w)).1 ≠ .SIM_RC_OK) :
    FailFast B E w0 (free_state B E
      ((if B.WITH_EMESH_SIM then sim_esim_init E w else (.SIM_RC_OK, w)).2.log
        (.sim_io_eprintf .esim_init_failed))) := by
  cases hB : B.WITH_EMESH_SIM
  · simp [hB] at hfail
  · simp only [hB, if_true] at hfail ⊢
    exact fail_esim_init B E h hfail

/-- The socket-serial step of `sim_open`, when it succeeds, keeps the log clean. -/
theorem clean_sockser_step {ES M : Type} (B : Build) (F : Framework ES M) {w0 w : World ES M}
    (h : Clean w0 w)
    (hok : ¬ (if B.HAVE_DV_SOCKSER then w.call F.dv_sockser_install .dv_sockser_install
              else (.SIM_RC_OK, w)).1 ≠ .SIM_RC_OK) :
    Clean w0 (if B.HAVE_DV_SOCKSER then w.call F.dv_sockser_install .dv_sockser_install
              else (.SIM_RC_OK, w)).2 := by
  cases hB : B.HAVE_DV_SOCKSER
  · simpa using h
  · simp only [hB, if_true] at hok ⊢
    exact clean_call h _ _ hok rfl

/-- The socket-serial step of `sim_open`, when it fails, gives a fail-fast exit. -/
theorem fail_sockser_step {ES M : Type} (B : Build) (E : Esim ES) (F : Framework ES M)
    {w0 w : World ES M} (h : Clean w0 w)
    (hfail : (if B.HAVE_DV_SOCKSER then w.call F.dv_sockser_install .dv_sockser_install
              else (.SIM_RC_OK, w)).1 ≠ .SIM_RC_OK) :
    FailFast B E w0 (free_state B E
      (if B.HAVE_DV_SOCKSER then w.call F.dv_sockser_install .dv_sockser_install
       else (.SIM_RC_OK, w)).2) := by
  cases hB : B.HAVE_DV_SOCKSER
  · simp [hB] at hfail
  · simp only [hB, if_true] at hfail ⊢
    exact fail_call B E h _ _ hfail rfl

/-- Case split on a test of the first part of `sim_open`. -/
theorem parse_shape_ite {ES M : Type} {B : Build} {E : Esim ES} {w0 : World ES M}
    {c : Prop} [Decidable c] {a b : World ES M ⊕ World ES M}
    (ha : c → ParseShape B E w0 a) (hb : ¬ c → ParseShape B E w0 b) :
    ParseShape B E w0 (if c then a else b) := by
  split
  · exact ha ‹_›
  · exact hb ‹_›

/-- The first part of `sim_open` ends in a fail-fast exit or in a clean log. -/
theorem sim_open_parse_shape {ES M : Type} (B : Build) (E : Esim ES) (F : Framework ES M)
    (kind : SIM_OPEN_KIND) (argv : List String) (w0 : World ES M) :
    ParseShape B E w0 (sim_open_parse B E F kind argv w0) := by
  unfold sim_open_parse
  dsimp only
  have c0 : Clean w0 (w0.exec (F.sim_state_alloc kind) .sim_state_alloc) :=
    clean_exec (clean_refl w0) _ _ rfl
  refine parse_shape_ite (fun h1 => fail_call B E c0 _ _ h1 rfl) (fun h1 => ?_)
  have c1 := clean_call c0 _ _ h1 rfl
  refine parse_shape_ite (fun h2 => fail_mesh_step B E c1 h2) (fun h2 => ?_)
  have c2 := clean_mesh_step B E c1 h2
  refine parse_shape_ite (fun h3 => fail_call B E c2 _ _ h3 rfl) (fun h3 => ?_)
  have c3 := clean_call c2 _ _ h3 rfl
  refine parse_shape_ite (fun h4 => fail_sockser_step B E F c3 h4) (fun h4 => ?_)
  have c4 := clean_sockser_step B F c3 h4
  have c5 := clean_exec c4 F.sim_add_option_table .sim_add_option_table rfl
  refine parse_shape_ite (fun h5 => fail_call B E c5 _ _ h5 rfl) (fun h5 => ?_)
  exact clean_call c5 _ _ h5 rfl

/-- Case split on a test of the second part of `sim_open`. -/
theorem finish_shape_ite {ES M : Type} {B : Build} {E : Esim ES} {w0 : World ES M}
    {c : Prop} [Decidable c] {a b : Opened × World ES M}
    (ha : c → FinishShape B E w0 a) (hb : ¬ c → FinishShape B E w0 b) :
    FinishShape B E w0 (if c then a else b) := by
  split
  · exact ha ‹_›
  · exact hb ‹_›

/-- A probe and the installation it may trigger keep the log clean: neither is a step
whose result is inspected. -/
theorem clean_probe_install {ES M : Type} (C : MemCore M) (base size : Nat)
    {w0 w : World ES M} (h : Clean w0 w) : Clean w0 (probe_install C base size w) := by
  unfold probe_install
  dsimp only
  have c1 := clean_log h (.sim_core_read_buffer base (C.sim_core_read_buffer w.st.core base)) rfl
  split
  · exact clean_log (w := { (w.log _) with st := _ }) (clean_trace c1 rfl) _ rfl
  · exact c1

/-- Memory provisioning keeps the log clean. -/
theorem clean_provision_memory {ES M : Type} (B : Build) (C : MemCore M) (F : Framework ES M)
    (L : MemLayout) {w0 w : World ES M} (h : Clean w0 w) :
    Clean w0 (provision_memory B C F L w) := by
  unfold provision_memory
  dsimp only
  split
  · exact clean_exec h _ _ rfl
  · split
    · exact clean_probe_install C _ _ (clean_probe_install C _ _ (clean_probe_install C _ _ h))
    · exact clean_probe_install C _ _ h

/-- The loop over `i` keeps the log clean. -/
theorem clean_attach_loop {ES M : Type} (B : Build) (F : Framework ES M) (cd : Nat)
    {w0 : World ES M} :
    ∀ (k i : Nat) (w : World ES M), B.MAX_NR_PROCESSORS - i = k → Clean w0 w →
      Clean w0 (attach_loop B F cd i w).2 := by
  intro k
  induction k with
  | zero =>
    intro i w hk hc
    rw [attach_loop]
    have hi : ¬ i < B.MAX_NR_PROCESSORS := by omega
    rw [if_neg hi]
    exact hc
  | succ k ih =>
    intro i w hk hc
    rw [attach_loop]
    have hi : i < B.MAX_NR_PROCESSORS := by omega
    rw [if_pos hi]
    exact ih (i + 1) _ (by omega) (clean_exec hc _ _ rfl)

/-- The loop over `c` keeps the log clean. -/
theorem clean_profile_loop {ES M : Type} (B : Build) (F : Framework ES M) (i : Nat)
    {w0 : World ES M} :
    ∀ (k c : Nat) (w : World ES M), B.MAX_NR_PROCESSORS - c = k → Clean w0 w →
      Clean w0 (profile_loop B F i c w) := by
  intro k
  induction k with
  | zero =>
    intro c w hk hc
    rw [profile_loop]
    have hi : ¬ c < B.MAX_NR_PROCESSORS := by omega
    rw [if_neg hi]
    exact hc
  | succ k ih =>
    intro c w hk hc
    rw [profile_loop]
    have hi : c < B.MAX_NR_PROCESSORS := by omega
    rw [if_pos hi]
    exact ih (c + 1) _ (by omega) (clean_exec hc _ _ rfl)

/-- The second part of `sim_open`, started from a clean log, returns null after a fail-fast
exit or returns something else with a clean log. -/
theorem sim_open_finish_shape {ES M : Type} (B : Build) (E : Esim ES) (C : MemCore M)
    (F : Framework ES M) (L : MemLayout) (w0 g : World ES M) (hg : Clean w0 g) :
    FinishShape B E w0 (sim_open_finish B E C F L g) := by
  unfold sim_open_finish
  dsimp only
  refine finish_shape_ite (fun h1 => ?_) (fun h1 => ?_)
  · left
    refine ⟨rfl, ?_⟩
    by_cases hc : B.WITH_EMESH_SIM = true ∧ g.st.kind = .SIM_OPEN_STANDALONE
    · simp only [hc, and_self, if_true, Bool.not_eq_true'] at h1 ⊢
      refine failfast_of_clean B E hg _
        (.es_valid_coreid (E.coreid g.st.esim) false) [.sim_io_eprintf .coreid_must_be_set]
        ?_ rfl (by simp [Event.is_diag])
      simp [World.log, h1]
    · rw [if_neg hc] at h1
      simp at h1
  have cv : Clean w0 (if B.WITH_EMESH_SIM = true ∧ g.st.kind = .SIM_OPEN_STANDALONE then
      (E.es_valid_coreid g.st.esim (E.coreid g.st.esim),
       g.log (.es_valid_coreid (E.coreid g.st.esim)
         (E.es_valid_coreid g.st.esim (E.coreid g.st.esim))))
      else (true, g)).2 := by
    by_cases hc : B.WITH_EMESH_SIM = true ∧ g.st.kind = .SIM_OPEN_STANDALONE
    · rw [if_pos hc] at h1 ⊢
      simp only [Bool.not_eq_true, Bool.not_eq_false'] at h1
      have hv : E.es_valid_coreid g.st.esim (E.coreid g.st.esim) = true := by simpa using h1
      rw [hv]
      exact clean_log hg _ rfl
    · rw [if_neg hc]
      exact hg
  have cm := clean_provision_memory B C F L cv
  refine finish_shape_ite (fun h2 => Or.inl ⟨rfl, fail_call B E cm _ _ h2 rfl⟩) (fun h2 => ?_)
  have c2 := clean_call cm _ _ h2 rfl
  refine finish_shape_ite (fun h3 => Or.inl ⟨rfl, fail_call B E c2 _ _ h3 rfl⟩) (fun h3 => ?_)
  have c3 := clean_call c2 _ _ h3 rfl
  refine finish_shape_ite (fun h4 => Or.inl ⟨rfl, fail_call B E c3 _ _ h4 rfl⟩) (fun h4 => ?_)
  have c4 := clean_call c3 _ _ h4 rfl
  have c5 := clean_log c4 .epiphany_cgen_cpu_open_1 rfl
  have c6 := clean_attach_loop B F F.epiphany_cgen_cpu_open_1 _ 0 _ rfl c5
  have c7 := clean_exec (clean_log c6 .epiphany_cgen_init_dis rfl) F.cgen_init .cgen_init rfl
  have c8 := fun i => clean_profile_loop B F i _ 0 _ rfl c7
  right
  exact ⟨by simp, clean_log (clean_trace (c8 _) rfl) _ rfl⟩

/-- The shape of every run of `sim_open`. -/
theorem sim_open_shape {ES M : Type} (B : Build) (E : Esim ES) (C : MemCore M)
    (F : Framework ES M) (L : MemLayout) (kind : SIM_OPEN_KIND) (argv : List String)
    (w0 : World ES M) :
    FinishShape B E w0 (sim_open B E C F L kind argv w0) := by
  have hp := sim_open_parse_shape B E F kind argv w0
  unfold sim_open
  cases hs : sim_open_parse B E F kind argv w0 with
  | inl r =>
    rw [hs] at hp
    exact Or.inl ⟨rfl, hp⟩
  | inr g =>
    rw [hs] at hp
    exact sim_open_finish_shape B E C F L w0 g hp

/-- A log whose only failed step is `x` splits around a failed step in one way only. -/
theorem unique_failed_split {a1 a2 b1 b2 : List Event} {x y : Event}
    (ha : ∀ z ∈ a1, z.failed_edge = false) (hb : ∀ z ∈ b1, z.failed_edge = false)
    (hy : y.failed_edge = true)
    (h : a1 ++ x :: b1 = a2 ++ y :: b2) : a1 = a2 ∧ x = y ∧ b1 = b2 := by
  induction a1 generalizing a2 with
  | nil =>
    cases a2 with
    | nil => simpa using h
    | cons c a2 =>
      simp only [List.nil_append, List.cons_append, List.cons.injEq] at h
      have : y ∈ b1 := by rw [h.2]; simp
      rw [hb y this] at hy
      cases hy
  | cons c a1 ih =>
    cases a2 with
    | nil =>
      simp only [List.nil_append, List.cons_append, List.cons.injEq] at h
      have := ha c (List.mem_cons_self _ _)
      rw [h.1, hy] at this
      cases this
    | cons d a2 =>
      simp only [List.cons_append, List.cons.injEq] at h
      obtain ⟨h1, h2, h3⟩ := ih (fun z hz => ha z (List.mem_cons_of_mem _ hz)) h.2
      exact ⟨by rw [h.1, h1], h2, h3⟩

/-- The calls made by `free_state`; none is a failed step. -/
theorem free_state_trace {ES M : Type} (B : Build) (E : Esim ES) (w : World ES M) :
    ∃ td, (free_state B E w).trace = w.trace ++ td ∧ ∀ x ∈ td, x.failed_edge = false := by
  unfold free_state
  dsimp only
  by_cases hm : w.st.modules = true <;> by_cases hB : B.WITH_EMESH_SIM = true
  · exact ⟨[.sim_module_uninstall, .es_cleanup, .sim_state_free],
      by simp [hm, hB, World.log], by simp [Event.failed_edge]⟩
  · exact ⟨[.sim_module_uninstall, .sim_cpu_free_all, .sim_state_free],
      by simp [hm, hB, World.log], by simp [Event.failed_edge]⟩
  · exact ⟨[.es_cleanup, .sim_state_free],
      by simp [hm, hB, World.log], by simp [Event.failed_edge]⟩
  · exact ⟨[.sim_cpu_free_all, .sim_state_free],
      by simp [hm, hB, World.log], by simp [Event.failed_edge]⟩

/-- A diagnostic is not a failed step. -/
theorem diag_not_failed (x : Event) (h : x.is_diag = true) : x.failed_edge = false := by
  cases x <;> simp_all [Event.is_diag, Event.failed_edge]

/-- C7, as amended. For every step of `sim_open` whose result the code inspects (cpu
allocation, mesh initialisation, pre-argv init, socket-serial install, option parsing, the
identity check of a stand-alone instance, program analysis, configuration, post-argv
init): if the log of a run contains that step with a failing result, then `sim_open`
returns null and the final world is `free_state` applied to a world whose log ends with
that step followed by diagnostics only, so none of the later steps ran.  Conversely
`sim_open` returns null only after such a failed step: the memory-region commands of the
provisioning block are not among the inspected steps, and whatever they do the bootstrap
goes on. -/
theorem sim_open_fail_fast {ES M : Type} (B : Build) (E : Esim ES) (C : MemCore M)
    (F : Framework ES M) (L : MemLayout) (kind : SIM_OPEN_KIND) (argv : List String)
    (w0 : World ES M) :
    (∀ (pre post : List Event) (e : Event),
      (sim_open B E C F L kind argv w0).2.trace = w0.trace ++ pre ++ e :: post →
      e.failed_edge = true →
      (sim_open B E C F L kind argv w0).1 = .null ∧
      ∃ wf diag, (sim_open B E C F L kind argv w0).2 = free_state B E wf ∧
        wf.trace = w0.trace ++ pre ++ e :: diag ∧ (∀ x ∈ diag, x.is_diag = true)) ∧
    ((sim_open B E C F L kind argv w0).1 = .null →
      ∃ (pre post : List Event) (e : Event),
        (sim_open B E C F L kind argv w0).2.trace = w0.trace ++ pre ++ e :: post ∧
        e.failed_edge = true) := by
  constructor
  · intro pre post e ht he
    rcases sim_open_shape B E C F L kind argv w0 with
      ⟨hn, pre0, f, diag, wf, hr, hwf, hpre, hf, hd⟩ | ⟨_, evs, hev, hclean⟩
    · refine ⟨hn, wf, diag, hr, ?_, hd⟩
      obtain ⟨td, htd, htdc⟩ := free_state_trace B E wf
      rw [hr, htd, hwf] at ht
      have h2 : pre0 ++ f :: (diag ++ td) = pre ++ e :: post := by
        have := ht
        simp only [List.append_assoc, List.cons_append] at this
        exact List.append_cancel_left this
      have hb : ∀ z ∈ diag ++ td, z.failed_edge = false := by
        intro z hz
        rcases List.mem_append.mp hz with hz | hz
        · exact diag_not_failed z (hd z hz)
        · exact htdc z hz
      obtain ⟨h3, h4, _⟩ := unique_failed_split hpre hb he h2
      rw [hwf, h3, h4]
    · exfalso
      rw [hev] at ht
      have h2 : evs = pre ++ e :: post := by
        have := ht
        simp only [List.append_assoc] at this
        exact List.append_cancel_left this
      have := hclean e (by rw [h2]; simp)
      rw [this] at he
      cases he
  · intro hnull
    rcases sim_open_shape B E C F L kind argv w0 with
      ⟨_, pre0, f, diag, wf, hr, hwf, _, hf, _⟩ | ⟨hne, _⟩
    · obtain ⟨td, htd, _⟩ := free_state_trace B E wf
      exact ⟨pre0, diag ++ td, f, by rw [hr, htd, hwf]; simp, hf⟩
    · exact absurd hnull hne

/-- C7 as amended, evaluated: when `sim_config` fails, the log is the thirteen steps
before it, the failed step, and the three calls of `free_state`; `sim_post_argv_init` and
the decode-engine attachment do not run, and the result is null. -/
theorem sim_open_fail_fast_witness :
    (sim_open mesh_build mesh regions (fw_config_fails _ _ 500) layout .SIM_OPEN_DEBUG []
        open_world).2.trace
      = open_world.trace ++
          [.sim_state_alloc, .sim_cpu_alloc_all .SIM_RC_OK,
           .es_init sim_esim_init_node sim_esim_init_cluster 0,
           .sim_pre_argv_init .SIM_RC_OK, .sim_add_option_table,
           .sim_parse_args .SIM_RC_OK,
           .sim_core_read_buffer 0 0, .sim_do_commandf_memory_region 0 0x100000,
           .sim_core_read_buffer 0x80000000 0,
           .sim_do_commandf_memory_region 0x80000000 0x1000000,
           .sim_core_read_buffer 0x81000000 0,
           .sim_do_commandf_memory_region 0x81000000 0x1000000,
           .sim_analyze_program .SIM_RC_OK] ++
          .sim_config .SIM_RC_FAIL ::
          [.sim_module_uninstall, .es_cleanup, .sim_state_free] ∧
    Event.failed_edge (.sim_config .SIM_RC_FAIL) = true ∧
    (sim_open mesh_build mesh regions (fw_config_fails _ _ 500) layout .SIM_OPEN_DEBUG []
        open_world).1 = .null :=
  ⟨by decide, rfl,
   ((sim_open_fail_fast mesh_build mesh regions (fw_config_fails _ _ 500) layout
      .SIM_OPEN_DEBUG [] open_world).1
      [.sim_state_alloc, .sim_cpu_alloc_all .SIM_RC_OK,
       .es_init sim_esim_init_node sim_esim_init_cluster 0,
       .sim_pre_argv_init .SIM_RC_OK, .sim_add_option_table,
       .sim_parse_args .SIM_RC_OK,
       .sim_core_read_buffer 0 0, .sim_do_commandf_memory_region 0 0x100000,
       .sim_core_read_buffer 0x80000000 0,
       .sim_do_commandf_memory_region 0x80000000 0x1000000,
       .sim_core_read_buffer 0x81000000 0,
       .sim_do_commandf_memory_region 0x81000000 0x1000000,
       .sim_analyze_program .SIM_RC_OK]
      [.sim_module_uninstall, .es_cleanup, .sim_state_free]
      (.sim_config .SIM_RC_FAIL) (by decide) rfl).1⟩

/-- C7 as stated fails when the installation of a default memory region fails.  On a
memory core where every `memory region` command fails (address 0 is still not backed
afterwards), `sim_open` goes on to program analysis, configuration, post-argv init and the
decode-engine attachment; `free_state` is never called and the descriptor is returned. -/
theorem sim_open_ignores_failed_memory_region :
    (sim_open mesh_build mesh regions_failing (fw_ok _ _ 500) layout .SIM_OPEN_DEBUG []
        open_world).2.trace
      = [.sim_state_alloc, .sim_cpu_alloc_all .SIM_RC_OK,
         .es_init sim_esim_init_node sim_esim_init_cluster 0,
         .sim_pre_argv_init .SIM_RC_OK, .sim_add_option_table,
         .sim_parse_args .SIM_RC_OK,
         .sim_core_read_buffer 0 0, .sim_do_commandf_memory_region 0 0x100000,
         .sim_core_read_buffer 0x80000000 0,
         .sim_do_commandf_memory_region 0x80000000 0x1000000,
         .sim_core_read_buffer 0x81000000 0,
         .sim_do_commandf_memory_region 0x81000000 0x1000000,
         .sim_analyze_program .SIM_RC_OK, .sim_config .SIM_RC_OK,
         .sim_post_argv_init .SIM_RC_OK, .epiphany_cgen_cpu_open_1,
         .attach_STATE_CPU 0, .epiphany_cgen_init_dis, .cgen_init,
         .hook_STATE_CPU 1, .cgen_init_accurate_fpu] ∧
    regions_failing.sim_core_read_buffer
      (sim_open mesh_build mesh regions_failing (fw_ok _ _ 500) layout .SIM_OPEN_DEBUG []
        open_world).2.st.core 0 = 0 ∧
    (sim_open mesh_build mesh regions_failing (fw_ok _ _ 500) layout .SIM_OPEN_DEBUG []
        open_world).1 ≠ .null := by
  simp [sim_open, sim_open_parse, sim_open_finish, World.call, World.exec, World.log, fw_ok,
    mesh_build, sim_esim_init, mesh, open_world, process_start, provision_memory,
    probe_install, regions, regions_failing, layout, attach_loop, profile_loop]

/-! ### The two loops over the cpu table -/

/-- The loop over `i`, entered at or below the bound, ends with `i = MAX_NR_PROCESSORS`. -/
theorem attach_loop_index {ES M : Type} (B : Build) (F : Framework ES M) (cd : Nat) :
    ∀ (k i : Nat) (w : World ES M), B.MAX_NR_PROCESSORS - i = k →
      i ≤ B.MAX_NR_PROCESSORS → (attach_loop B F cd i w).1 = B.MAX_NR_PROCESSORS := by
  intro k
  induction k with
  | zero =>
    intro i w hk hle
    rw [attach_loop]
    have hi : ¬ i < B.MAX_NR_PROCESSORS := by omega
    rw [if_neg hi]
    show i = B.MAX_NR_PROCESSORS
    omega
  | succ k ih =>
    intro i w hk hle
    rw [attach_loop]
    have hi : i < B.MAX_NR_PROCESSORS := by omega
    rw [if_pos hi]
    exact ih (i + 1) _ (by omega) (by omega)

/-- The accesses of the loop over `i`: one at each index from `i` up to the bound. -/
theorem attach_loop_trace {ES M : Type} (B : Build) (F : Framework ES M) (cd : Nat) :
    ∀ (k i : Nat) (w : World ES M), B.MAX_NR_PROCESSORS - i = k →
      (attach_loop B F cd i w).2.trace
        = w.trace ++ (List.range' i k).map Event.attach_STATE_CPU := by
  intro k
  induction k with
  | zero =>
    intro i w hk
    rw [attach_loop]
    have hi : ¬ i < B.MAX_NR_PROCESSORS := by omega
    rw [if_neg hi]
    simp
  | succ k ih =>
    intro i w hk
    rw [attach_loop]
    have hi : i < B.MAX_NR_PROCESSORS := by omega
    rw [if_pos hi, ih (i + 1) _ (by omega)]
    simp [World.exec, World.log, List.range'_succ]

/-- The accesses of the loop over `c`: one per remaining count, each at the index `i` the
loop was entered with. -/
theorem profile_loop_trace {ES M : Type} (B : Build) (F : Framework ES M) (i : Nat) :
    ∀ (k c : Nat) (w : World ES M), B.MAX_NR_PROCESSORS - c = k →
      (profile_loop B F i c w).trace
        = w.trace ++ List.replicate k (Event.hook_STATE_CPU i) := by
  intro k
  induction k with
  | zero =>
    intro c w hk
    rw [profile_loop]
    have hi : ¬ c < B.MAX_NR_PROCESSORS := by omega
    rw [if_neg hi]
    simp
  | succ k ih =>
    intro c w hk
    rw [profile_loop]
    have hi : c < B.MAX_NR_PROCESSORS := by omega
    rw [if_pos hi, ih (c + 1) _ (by omega)]
    simp [World.exec, World.log, List.replicate_succ]

/-- A log that ends with `c`, then `R`, then `f`, split before `c`. -/
theorem log_tail_split (P R : List Event) (c f : Event) :
    ∃ pre, ((P ++ [c]) ++ R) ++ [f] = pre ++ c :: (R ++ [f]) :=
  ⟨P, by simp⟩

/-- C10, evaluated.  For every value of `MAX_NR_PROCESSORS` and whatever `STATE_CPU` and the
cpu macros do: the loop over `i` goes through `STATE_CPU (sd, 0)` ..
`STATE_CPU (sd, MAX_NR_PROCESSORS - 1)` and leaves `i = MAX_NR_PROCESSORS`; the loop over
`c`, entered with that `i`, makes `MAX_NR_PROCESSORS` accesses and every one of them goes
through `STATE_CPU (sd, MAX_NR_PROCESSORS)`, an index that is not below
`MAX_NR_PROCESSORS`; and in every `sim_open` that does not return null these are the
accesses made between `cgen_init` and `cgen_init_accurate_fpu`.  With
`MAX_NR_PROCESSORS = 1` the profiling hook goes to index 1 and never to index 0. -/
theorem profile_loop_indexes_with_i {ES M : Type} (B : Build) (E : Esim ES) (C : MemCore M)
    (F : Framework ES M) (L : MemLayout) (kind : SIM_OPEN_KIND) (argv : List String)
    (w w0 : World ES M) (cd : Nat) :
    (attach_loop B F cd 0 w).1 = B.MAX_NR_PROCESSORS ∧
    (attach_loop B F cd 0 w).2.trace
      = w.trace ++ (List.range B.MAX_NR_PROCESSORS).map Event.attach_STATE_CPU ∧
    (profile_loop B F (attach_loop B F cd 0 w).1 0 w).trace
      = w.trace ++
          List.replicate B.MAX_NR_PROCESSORS (Event.hook_STATE_CPU B.MAX_NR_PROCESSORS) ∧
    ((sim_open B E C F L kind argv w0).1 = .null ∨
      ∃ pre, (sim_open B E C F L kind argv w0).2.trace
        = pre ++ Event.cgen_init ::
            (List.replicate B.MAX_NR_PROCESSORS (Event.hook_STATE_CPU B.MAX_NR_PROCESSORS)
              ++ [Event.cgen_init_accurate_fpu])) ∧
    (sim_open mesh_build mesh regions (fw_ok _ _ 500) layout .SIM_OPEN_DEBUG []
        open_world).1 = .desc ∧
    (sim_open mesh_build mesh regions (fw_ok _ _ 500) layout .SIM_OPEN_DEBUG []
        open_world).2.trace
      = [.sim_state_alloc, .sim_cpu_alloc_all .SIM_RC_OK,
         .es_init sim_esim_init_node sim_esim_init_cluster 0,
         .sim_pre_argv_init .SIM_RC_OK, .sim_add_option_table,
         .sim_parse_args .SIM_RC_OK,
         .sim_core_read_buffer 0 0, .sim_do_commandf_memory_region 0 0x100000,
         .sim_core_read_buffer 0x80000000 0,
         .sim_do_commandf_memory_region 0x80000000 0x1000000,
         .sim_core_read_buffer 0x81000000 0,
         .sim_do_commandf_memory_region 0x81000000 0x1000000,
         .sim_analyze_program .SIM_RC_OK, .sim_config .SIM_RC_OK,
         .sim_post_argv_init .SIM_RC_OK, .epiphany_cgen_cpu_open_1,
         .attach_STATE_CPU 0, .epiphany_cgen_init_dis, .cgen_init,
         .hook_STATE_CPU 1, .cgen_init_accurate_fpu] := by
  have hidx : ∀ (cd : Nat) (w : World ES M),
      (attach_loop B F cd 0 w).1 = B.MAX_NR_PROCESSORS :=
    fun cd w => attach_loop_index B F cd _ 0 w rfl (Nat.zero_le _)
  have hprof : ∀ (i : Nat) (w : World ES M),
      (profile_loop B F i 0 w).trace
        = w.trace ++ List.replicate B.MAX_NR_PROCESSORS (Event.hook_STATE_CPU i) :=
    fun i w => profile_loop_trace B F i _ 0 w rfl
  refine ⟨hidx cd w, ?_, ?_, ?_, ?_⟩
  · rw [attach_loop_trace B F cd _ 0 w rfl, List.range_eq_range']
    rfl
  · rw [hidx, hprof]
  · unfold sim_open
    cases sim_open_parse B E F kind argv w0 with
    | inl r => exact Or.inl rfl
    | inr g =>
      unfold sim_open_finish
      dsimp only
      split_ifs
      all_goals first
        | exact Or.inl rfl
        | (right
           simp only [World.log, World.exec, hidx, hprof]
           exact log_tail_split _ _ _ _)
  · simp [sim_open, sim_open_parse, sim_open_finish, World.call, World.exec, World.log,
      fw_ok, mesh_build, sim_esim_init, mesh, open_world, process_start, provision_memory,
      probe_install, regions, layout, attach_loop, profile_loop]

end Epiphany
